import Mathlib

/-!
Verification development for `src/diffusers/models/transformers/transformer_mochi.py`
(classes `MochiTransformerBlock` and `MochiTransformer3DModel`).

Tensors are shallowly embedded as shaped index functions over `ℝ`.  The external
numeric primitives consumed by the code (adaptive zero-norm, RMS norm, joint
attention, feed-forward, patch embedding, the combined timestep/caption
embedding, the output adaptive norm and the output linear projection) are
parameters of the embedding, with their tensor-in/tensor-out shape contracts
stated as propositions where theorems need them.  The reshape / permute /
flatten / unflatten steps of the model's forward pass, and every arithmetic
expression of the two classes, are translated directly from the source.
Operations that can raise a shape error in PyTorch (broadcasting of
mismatched shapes, `reshape` with `-1`, `unflatten`) return `Option`.
-/

namespace MochiSpec

/-- A 1-D tensor: shape and an index function. -/
structure Tensor1 where
  d0 : ℕ
  val : ℕ → ℝ

/-- A 2-D tensor: shape and an index function. -/
structure Tensor2 where
  d0 : ℕ
  d1 : ℕ
  val : ℕ → ℕ → ℝ

/-- A 3-D tensor: shape and an index function. -/
structure Tensor3 where
  d0 : ℕ
  d1 : ℕ
  d2 : ℕ
  val : ℕ → ℕ → ℕ → ℝ

/-- A 4-D tensor: shape and an index function. -/
structure Tensor4 where
  d0 : ℕ
  d1 : ℕ
  d2 : ℕ
  d3 : ℕ
  val : ℕ → ℕ → ℕ → ℕ → ℝ

/-- A 5-D tensor: shape and an index function. -/
structure Tensor5 where
  d0 : ℕ
  d1 : ℕ
  d2 : ℕ
  d3 : ℕ
  d4 : ℕ
  val : ℕ → ℕ → ℕ → ℕ → ℕ → ℝ

/-- A 7-D tensor (intermediate stage of the unpatchify reshape). -/
structure Tensor7 where
  d0 : ℕ
  d1 : ℕ
  d2 : ℕ
  d3 : ℕ
  d4 : ℕ
  d5 : ℕ
  d6 : ℕ
  val : ℕ → ℕ → ℕ → ℕ → ℕ → ℕ → ℕ → ℝ

def Tensor2.shape (t : Tensor2) : ℕ × ℕ := (t.d0, t.d1)

def Tensor3.shape (t : Tensor3) : ℕ × ℕ × ℕ := (t.d0, t.d1, t.d2)

def Tensor5.shape (t : Tensor5) : ℕ × ℕ × ℕ × ℕ × ℕ := (t.d0, t.d1, t.d2, t.d3, t.d4)

/-- PyTorch broadcasting of one dimension pair: equal sizes broadcast to
themselves, a size of 1 stretches to the other size, anything else is a
shape error. -/
def bdim (a b : ℕ) : Option ℕ :=
  if a = b then some a else if a = 1 then some b else if b = 1 then some a else none

/-- Index into a possibly-stretched broadcast dimension: a size-1 dimension is
always read at index 0. -/
def bidx (size i : ℕ) : ℕ :=
  if size = 1 then 0 else i

/-- Elementwise binary operation on 3-D tensors with PyTorch broadcasting;
`none` models the runtime shape error on incompatible shapes. -/
def elemwise3 (f : ℝ → ℝ → ℝ) (x y : Tensor3) : Option Tensor3 :=
  match bdim x.d0 y.d0, bdim x.d1 y.d1, bdim x.d2 y.d2 with
  | some a, some b, some c =>
      some ⟨a, b, c, fun i j k =>
        f (x.val (bidx x.d0 i) (bidx x.d1 j) (bidx x.d2 k))
          (y.val (bidx y.d0 i) (bidx y.d1 j) (bidx y.d2 k))⟩
  | _, _, _ => none

/-- Broadcasting addition of 3-D tensors. -/
def add3 (x y : Tensor3) : Option Tensor3 :=
  elemwise3 (fun a b => a + b) x y

/-- Broadcasting multiplication of 3-D tensors. -/
def mul3 (x y : Tensor3) : Option Tensor3 :=
  elemwise3 (fun a b => a * b) x y

/-- `t.unsqueeze(1)` on a 2-D tensor: insert a new axis of size 1 at position 1. -/
def unsqueeze1 (g : Tensor2) : Tensor3 :=
  ⟨g.d0, 1, g.d1, fun b _ d => g.val b d⟩

/-- `t.unsqueeze(0)` on a 2-D tensor: insert a new axis of size 1 at position 0. -/
def unsqueeze0 (g : Tensor2) : Tensor3 :=
  ⟨1, g.d0, g.d1, fun _ t d => g.val t d⟩

/-- `torch.tanh` applied elementwise to a 2-D tensor. -/
noncomputable def tanh2 (g : Tensor2) : Tensor2 :=
  ⟨g.d0, g.d1, fun b d => Real.tanh (g.val b d)⟩

/-- `1 + t` on a 3-D tensor (scalar broadcast, as in `1 + scale.unsqueeze(1)`). -/
def onePlus3 (t : Tensor3) : Tensor3 :=
  ⟨t.d0, t.d1, t.d2, fun i j k => 1 + t.val i j k⟩

/-- Rotary positional embedding pair, passed through to the attention primitive. -/
abbrev Rotary := Tensor2 × Tensor2

/-- Signature of the adaptive zero-norm external primitive
(`MochiRMSNormZero`): normalized tensor plus the three modulation vectors
`gate_msa, scale_mlp, gate_mlp`. -/
abbrev AdaNormFn := Tensor3 → Tensor2 → Tensor3 × Tensor2 × Tensor2 × Tensor2

/-- Signature of the joint attention external primitive (`Attention` with the
`FluxAttnProcessor2_0` processor): updated (video, text) pair. -/
abbrev AttnFn := Tensor3 → Tensor3 → Option Rotary → Tensor3 × Tensor3

/-- The text-side first normalization of a block is one of two module kinds,
resolved at construction (source lines 55-58): a `MochiRMSNormZero` for
non-terminal blocks, a plain `nn.Linear` for the terminal block. -/
inductive ContextNorm where
  | modulated (f : AdaNormFn) : ContextNorm
  | linear (f : Tensor3 → Tensor3) : ContextNorm

/-- Calling the module as `self.norm1_context(x, temb)` is only valid on the
modulated variant; on the linear variant Python raises. -/
def ContextNorm.asModulated : ContextNorm → Option AdaNormFn
  | ContextNorm.modulated f => some f
  | ContextNorm.linear _ => none

/-- Calling the module as `self.norm1_context(x)` is only valid on the linear
variant; on the modulated variant Python raises. -/
def ContextNorm.asLinear : ContextNorm → Option (Tensor3 → Tensor3)
  | ContextNorm.modulated _ => none
  | ContextNorm.linear f => some f

/-- State of one `MochiTransformerBlock` after `__init__` (source lines 37-89):
the `context_pre_only` flag, the two derived feed-forward inner widths, and the
constructed sub-modules (external primitives, held as functions). -/
structure MochiTransformerBlock where
  context_pre_only : Bool
  ff_inner_dim : ℕ
  ff_context_inner_dim : ℕ
  norm1 : AdaNormFn
  norm1_context : ContextNorm
  attn1 : AttnFn
  norm2 : Tensor3 → Tensor3
  norm2_context : Tensor3 → Tensor3
  norm3 : Tensor3 → Tensor3
  norm3_context : Tensor3 → Tensor3
  ff : Tensor3 → Tensor3
  ff_context : Option (Tensor3 → Tensor3)

/-- The external module instances a block constructor consumes (the concrete
`MochiRMSNormZero`, `nn.Linear`, `Attention`, `RMSNorm` and `FeedForward`
objects built in `__init__` are external library components; see spec section
6 for their contracts). -/
structure BlockPrims where
  norm1 : AdaNormFn
  norm1_context_mod : AdaNormFn
  norm1_context_lin : Tensor3 → Tensor3
  attn1 : AttnFn
  norm2 : Tensor3 → Tensor3
  norm2_context : Tensor3 → Tensor3
  norm3 : Tensor3 → Tensor3
  norm3_context : Tensor3 → Tensor3
  ff : Tensor3 → Tensor3
  ff_context : Tensor3 → Tensor3

/-- `MochiTransformerBlock.__init__` (source lines 37-89): derives the two
feed-forward inner widths with integer floor division, selects the text-side
norm variant by `context_pre_only`, and leaves `ff_context` as `None` for the
terminal block. -/
def mkMochiTransformerBlock (dim pooled_projection_dim : ℕ) (context_pre_only : Bool)
    (prims : BlockPrims) : MochiTransformerBlock where
  context_pre_only := context_pre_only
  ff_inner_dim := (4 * dim * 2) / 3
  ff_context_inner_dim := (4 * pooled_projection_dim * 2) / 3
  norm1 := prims.norm1
  norm1_context :=
    if context_pre_only then ContextNorm.linear prims.norm1_context_lin
    else ContextNorm.modulated prims.norm1_context_mod
  attn1 := prims.attn1
  norm2 := prims.norm2
  norm2_context := prims.norm2_context
  norm3 := prims.norm3
  norm3_context := prims.norm3_context
  ff := prims.ff
  ff_context := if context_pre_only then none else some prims.ff_context

/-- Source lines 117-119: the text-stream gated attention residual
`encoder_hidden_states + norm2_context(context_attn_hidden_states)
* tanh(enc_gate_msa).unsqueeze(1)`. -/
noncomputable def mochiTextAttnResidual (norm2_context : Tensor3 → Tensor3)
    (encoder_hidden_states context_attn_hidden_states : Tensor3)
    (enc_gate_msa : Tensor2) : Option Tensor3 := do
  let t ← mul3 (norm2_context context_attn_hidden_states) (unsqueeze1 (tanh2 enc_gate_msa))
  add3 encoder_hidden_states t

/-- Source lines 120-122: the tensor fed into the text-side feed-forward,
`encoder_hidden_states + norm3_context(encoder_hidden_states)
* (1 + enc_scale_mlp.unsqueeze(1))`. -/
def mochiTextFFInput (norm3_context : Tensor3 → Tensor3)
    (encoder_hidden_states : Tensor3) (enc_scale_mlp : Tensor2) : Option Tensor3 := do
  let t ← mul3 (norm3_context encoder_hidden_states) (onePlus3 (unsqueeze1 enc_scale_mlp))
  add3 encoder_hidden_states t

/-- Modelled from the spec: the text-side feed-forward input as the spec's
step 6 words it, mirroring the video-side step 5 — the scaled tensor
`RMSNorm(text) * (1 + enc_scale_mlp)` broadcast over tokens, with no residual
term folded in.  Stated for comparison with `mochiTextFFInput`. -/
def specTextFFInput (norm3_context : Tensor3 → Tensor3)
    (encoder_hidden_states : Tensor3) (enc_scale_mlp : Tensor2) : Option Tensor3 :=
  mul3 (norm3_context encoder_hidden_states) (onePlus3 (unsqueeze1 enc_scale_mlp))

/-- Source line 129: the text-side feed-forward gated residual
`encoder_hidden_states + context_ff_output * tanh(enc_gate_mlp).unsqueeze(0)`. -/
noncomputable def mochiTextFFResidual (encoder_hidden_states context_ff_output : Tensor3)
    (enc_gate_mlp : Tensor2) : Option Tensor3 := do
  let t ← mul3 context_ff_output (unsqueeze0 (tanh2 enc_gate_mlp))
  add3 encoder_hidden_states t

/-- Modelled from the spec: the text-side feed-forward gated residual with the
gate broadcast over the token axis (`unsqueeze(1)`), exactly mirroring the
video-side update of source line 125.  Stated for comparison with
`mochiTextFFResidual`. -/
noncomputable def specTextFFResidual (encoder_hidden_states context_ff_output : Tensor3)
    (enc_gate_mlp : Tensor2) : Option Tensor3 := do
  let t ← mul3 context_ff_output (unsqueeze1 (tanh2 enc_gate_mlp))
  add3 encoder_hidden_states t

/-- `MochiTransformerBlock.forward` (source lines 91-131).  The source tests
`self.context_pre_only` at lines 100, 116 and 127; since the flag is immutable
the three tests are merged into one branch here, each branch following the
corresponding source lines in order.  Ops that can raise a PyTorch shape error
return `none`; dereferencing the wrong `norm1_context` variant (or a `None`
`ff_context`) also yields `none`. -/
noncomputable def MochiTransformerBlock.forward (blk : MochiTransformerBlock)
    (hidden_states encoder_hidden_states : Tensor3) (temb : Tensor2)
    (image_rotary_emb : Option Rotary) : Option (Tensor3 × Tensor3) := do
  -- line 98
  let (norm_hidden_states, gate_msa, scale_mlp, gate_mlp) := blk.norm1 hidden_states temb
  if blk.context_pre_only then do
    -- lines 104-105
    let lin ← blk.norm1_context.asLinear
    let norm_encoder_hidden_states := lin encoder_hidden_states
    -- lines 107-111
    let (attn_hidden_states, _context_attn_hidden_states) :=
      blk.attn1 norm_hidden_states norm_encoder_hidden_states image_rotary_emb
    -- line 113
    let t1 ← mul3 (blk.norm2 attn_hidden_states) (unsqueeze1 (tanh2 gate_msa))
    let hidden_states ← add3 hidden_states t1
    -- line 114
    let norm_hidden_states ← mul3 (blk.norm3 hidden_states) (onePlus3 (unsqueeze1 scale_mlp))
    -- lines 124-125
    let ff_output := blk.ff norm_hidden_states
    let t2 ← mul3 ff_output (unsqueeze1 (tanh2 gate_mlp))
    let hidden_states ← add3 hidden_states t2
    -- line 131
    return (hidden_states, encoder_hidden_states)
  else do
    -- lines 100-103
    let nc ← blk.norm1_context.asModulated
    let (norm_encoder_hidden_states, enc_gate_msa, enc_scale_mlp, enc_gate_mlp) :=
      nc encoder_hidden_states temb
    -- lines 107-111
    let (attn_hidden_states, context_attn_hidden_states) :=
      blk.attn1 norm_hidden_states norm_encoder_hidden_states image_rotary_emb
    -- line 113
    let t1 ← mul3 (blk.norm2 attn_hidden_states) (unsqueeze1 (tanh2 gate_msa))
    let hidden_states ← add3 hidden_states t1
    -- line 114
    let norm_hidden_states ← mul3 (blk.norm3 hidden_states) (onePlus3 (unsqueeze1 scale_mlp))
    -- lines 117-119
    let encoder_hidden_states ← mochiTextAttnResidual blk.norm2_context
      encoder_hidden_states context_attn_hidden_states enc_gate_msa
    -- lines 120-122
    let norm_encoder_hidden_states ← mochiTextFFInput blk.norm3_context
      encoder_hidden_states enc_scale_mlp
    -- lines 124-125
    let ff_output := blk.ff norm_hidden_states
    let t2 ← mul3 ff_output (unsqueeze1 (tanh2 gate_mlp))
    let hidden_states ← add3 hidden_states t2
    -- lines 127-129
    let ffc ← blk.ff_context
    let context_ff_output := ffc norm_encoder_hidden_states
    let encoder_hidden_states ← mochiTextFFResidual encoder_hidden_states
      context_ff_output enc_gate_mlp
    -- line 131
    return (hidden_states, encoder_hidden_states)

/-- Source line 212: `hidden_states.permute(0, 2, 1, 3, 4).flatten(0, 1)` —
fold the frame axis into the batch axis of the 5-D video tensor. -/
def permuteFlattenFrames (x : Tensor5) : Tensor4 :=
  ⟨x.d0 * x.d2, x.d1, x.d3, x.d4,
    fun bf c h w => x.val (bf / x.d2) c (bf % x.d2) h w⟩

/-- Source line 214, first half: `t.unflatten(0, (batch_size, -1))` — split the
leading axis into `(batch_size, -1)`; PyTorch raises unless the leading size is
divisible by `batch_size`. -/
def unflatten0 (t : Tensor3) (batch_size : ℕ) : Option Tensor4 :=
  if batch_size ≠ 0 ∧ t.d0 % batch_size = 0 then
    some ⟨batch_size, t.d0 / batch_size, t.d1, t.d2,
      fun b f tok d => t.val (b * (t.d0 / batch_size) + f) tok d⟩
  else none

/-- Source line 214, second half: `t.flatten(1, 2)` — merge the frame axis into
the token axis (frame-major token order). -/
def flatten12 (t : Tensor4) : Tensor3 :=
  ⟨t.d0, t.d1 * t.d2, t.d3, fun b ft d => t.val b (ft / t.d2) (ft % t.d2) d⟩

/-- Source line 228: `t.reshape(batch_size, num_frames, post_patch_height,
post_patch_width, p, p, -1)` — row-major reshape of a 3-D tensor into seven
axes, the last inferred; PyTorch raises when the known sizes do not divide the
element count (or when `-1` cannot be inferred). -/
def reshape3to7 (t : Tensor3) (b f ph pw p1 p2 : ℕ) : Option Tensor7 :=
  if b * f * ph * pw * p1 * p2 ≠ 0 ∧
      (t.d0 * t.d1 * t.d2) % (b * f * ph * pw * p1 * p2) = 0 then
    let c := t.d0 * t.d1 * t.d2 / (b * f * ph * pw * p1 * p2)
    some ⟨b, f, ph, pw, p1, p2, c, fun i0 i1 i2 i3 i4 i5 i6 =>
      let flat := (((((i0 * f + i1) * ph + i2) * pw + i3) * p1 + i4) * p2 + i5) * c + i6
      t.val (flat / (t.d1 * t.d2)) (flat / t.d2 % t.d1) (flat % t.d2)⟩
  else none

/-- Source line 229: `t.permute(0, 6, 1, 2, 4, 3, 5)` on a 7-D tensor. -/
def permute0612435 (t : Tensor7) : Tensor7 :=
  ⟨t.d0, t.d6, t.d1, t.d2, t.d4, t.d3, t.d5,
    fun i0 i1 i2 i3 i4 i5 i6 => t.val i0 i2 i3 i5 i4 i6 i1⟩

/-- Source line 230: `t.reshape(batch_size, -1, num_frames, height, width)` —
row-major reshape of a 7-D tensor into five axes with the second inferred. -/
def reshape7to5 (t : Tensor7) (b f h w : ℕ) : Option Tensor5 :=
  if b * f * h * w ≠ 0 ∧
      (t.d0 * t.d1 * t.d2 * t.d3 * t.d4 * t.d5 * t.d6) % (b * f * h * w) = 0 then
    let c := t.d0 * t.d1 * t.d2 * t.d3 * t.d4 * t.d5 * t.d6 / (b * f * h * w)
    some ⟨b, c, f, h, w, fun i0 i1 i2 i3 i4 =>
      let flat := (((i0 * c + i1) * f + i2) * h + i3) * w + i4
      t.val (flat / (t.d1 * t.d2 * t.d3 * t.d4 * t.d5 * t.d6))
            (flat / (t.d2 * t.d3 * t.d4 * t.d5 * t.d6) % t.d1)
            (flat / (t.d3 * t.d4 * t.d5 * t.d6) % t.d2)
            (flat / (t.d4 * t.d5 * t.d6) % t.d3)
            (flat / (t.d5 * t.d6) % t.d4)
            (flat / t.d6 % t.d5)
            (flat % t.d6)⟩
  else none

/-- Python's `out_channels or in_channels` (source line 157): `None` and `0`
are both falsy, so either yields `in_channels`. -/
def pythonOrNat (o : Option ℕ) (dflt : ℕ) : ℕ :=
  match o with
  | none => dflt
  | some v => if v = 0 then dflt else v

/-- State of the `MochiTransformer3DModel` after `__init__` (source lines
138-193): configuration, the learned-but-unused `pos_frequencies` parameter,
the externally constructed embedding / output modules, and the block stack. -/
structure MochiTransformer3DModel where
  patch_size : ℕ
  in_channels : ℕ
  out_channels : ℕ
  pos_frequencies : Tensor3
  patch_embed : Tensor4 → Tensor3
  time_embed : Tensor1 → Tensor3 → Tensor2 → Tensor2 × Tensor3
  transformer_blocks : List MochiTransformerBlock
  norm_out : Tensor3 → Tensor2 → Tensor3
  proj_out : Tensor3 → Tensor3

/-- `MochiTransformer3DModel.__init__` (source lines 138-193): resolves
`out_channels` with Python's `or` (line 157), builds `pos_frequencies` with
shape `(3, num_attention_heads, attention_head_dim // 2)` (line 173), and
builds `num_layers` blocks with `context_pre_only = (i == num_layers - 1)`
(lines 175-188).  The external modules (patch embedding, combined
timestep+caption embedding, per-layer block primitives, output norm and
projection) are taken as arguments. -/
def mkMochiTransformer3DModel (patch_size num_attention_heads attention_head_dim
    num_layers pooled_projection_dim in_channels : ℕ) (out_channels : Option ℕ)
    (pos_freq_val : ℕ → ℕ → ℕ → ℝ)
    (patch_embed : Tensor4 → Tensor3)
    (time_embed : Tensor1 → Tensor3 → Tensor2 → Tensor2 × Tensor3)
    (blockEnv : ℕ → BlockPrims)
    (norm_out : Tensor3 → Tensor2 → Tensor3)
    (proj_out : Tensor3 → Tensor3) : MochiTransformer3DModel where
  patch_size := patch_size
  in_channels := in_channels
  out_channels := pythonOrNat out_channels in_channels
  pos_frequencies := ⟨3, num_attention_heads, attention_head_dim / 2, pos_freq_val⟩
  patch_embed := patch_embed
  time_embed := time_embed
  transformer_blocks :=
    (List.range num_layers).map fun i =>
      mkMochiTransformerBlock (num_attention_heads * attention_head_dim)
        pooled_projection_dim (i == num_layers - 1) (blockEnv i)
  norm_out := norm_out
  proj_out := proj_out

/-- `MochiTransformer3DModel.forward` (source lines 195-234): read the input
shape, embed the conditioning, patchify (lines 212-214), run the block stack
(lines 216-222), apply the output norm and projection (lines 225-226), and
unpatchify (lines 228-230).  Returns `none` when any step raises a shape
error. -/
noncomputable def MochiTransformer3DModel.forward (m : MochiTransformer3DModel)
    (hidden_states : Tensor5) (encoder_hidden_states : Tensor3)
    (timestep : Tensor1) (encoder_attention_mask : Tensor2)
    (image_rotary_emb : Option Rotary) : Option Tensor5 := do
  -- lines 204-208
  let batch_size := hidden_states.d0
  let num_frames := hidden_states.d2
  let height := hidden_states.d3
  let width := hidden_states.d4
  let p := m.patch_size
  let post_patch_height := height / p
  let post_patch_width := width / p
  -- line 210
  let (temb, encoder_hidden_states) :=
    m.time_embed timestep encoder_hidden_states encoder_attention_mask
  -- lines 212-214
  let hs4 := permuteFlattenFrames hidden_states
  let hs3 := m.patch_embed hs4
  let hs4b ← unflatten0 hs3 batch_size
  let hidden3 := flatten12 hs4b
  -- lines 216-222
  let st ← List.foldlM
    (fun (st : Tensor3 × Tensor3) (block : MochiTransformerBlock) =>
      block.forward st.1 st.2 temb image_rotary_emb)
    (hidden3, encoder_hidden_states) m.transformer_blocks
  -- lines 225-226
  let hidden3 := m.norm_out st.1 temb
  let hidden3 := m.proj_out hidden3
  -- lines 228-230
  let hs7 ← reshape3to7 hidden3 batch_size num_frames post_patch_height post_patch_width p p
  let hs7 := permute0612435 hs7
  reshape7to5 hs7 batch_size num_frames height width

/-- Modelled from the spec: the patch-embedding external module
(`PatchEmbed`, spec section 6: `patch_embed(tensor[B,C,H,W]) ->
tensor[B,tokens,dim]`) with identity weights — each non-overlapping `p x p`
spatial patch becomes one token, tokens enumerating (post-patch row,
post-patch col) in row-major order and each token flattening its patch as
(row offset, col offset, channel) in row-major order; a trailing remainder of
rows or columns narrower than `p` is dropped, as a stride-`p` convolution
does. -/
def identityPatchEmbed (p : ℕ) (x : Tensor4) : Tensor3 :=
  ⟨x.d0, (x.d2 / p) * (x.d3 / p), p * p * x.d1,
    fun b tok e =>
      x.val b (e % x.d1)
        ((tok / (x.d3 / p)) * p + e / (x.d1 * p))
        ((tok % (x.d3 / p)) * p + e / x.d1 % p)⟩

/-- Shape contracts of the external primitives held by one block, as the spec
states them (section 6): the adaptive zero-norm returns a same-shaped
normalized tensor and three `(batch, dim)` modulation vectors, the joint
attention returns a pair matching its two inputs, and the RMS norms and
feed-forwards preserve shape. -/
structure BlockContract (blk : MochiTransformerBlock) : Prop where
  norm1 : ∀ x t, (blk.norm1 x t).1.shape = x.shape ∧
    (blk.norm1 x t).2.1.shape = (x.d0, x.d2) ∧
    (blk.norm1 x t).2.2.1.shape = (x.d0, x.d2) ∧
    (blk.norm1 x t).2.2.2.shape = (x.d0, x.d2)
  norm1_context_mod : ∀ nc, blk.norm1_context = ContextNorm.modulated nc →
    ∀ x t, (nc x t).1.shape = x.shape ∧
      (nc x t).2.1.shape = (x.d0, x.d2) ∧
      (nc x t).2.2.1.shape = (x.d0, x.d2) ∧
      (nc x t).2.2.2.shape = (x.d0, x.d2)
  attn1 : ∀ a b r, (blk.attn1 a b r).1.shape = a.shape ∧ (blk.attn1 a b r).2.shape = b.shape
  norm2 : ∀ x, (blk.norm2 x).shape = x.shape
  norm2_context : ∀ x, (blk.norm2_context x).shape = x.shape
  norm3 : ∀ x, (blk.norm3 x).shape = x.shape
  norm3_context : ∀ x, (blk.norm3_context x).shape = x.shape
  ff : ∀ x, (blk.ff x).shape = x.shape
  ff_context : ∀ f, blk.ff_context = some f → ∀ x, (f x).shape = x.shape

/-- Construction invariant wired by `mkMochiTransformerBlock` (source lines
55-58 and 84-86): the text-side norm variant and the presence of `ff_context`
agree with `context_pre_only`. -/
def BlockVariantsOk (blk : MochiTransformerBlock) : Prop :=
  (blk.context_pre_only = true → ∃ lin, blk.norm1_context = ContextNorm.linear lin) ∧
  (blk.context_pre_only = false →
    (∃ nc, blk.norm1_context = ContextNorm.modulated nc) ∧
    ∃ f, blk.ff_context = some f)

theorem mk_block_variants_ok (dim pooled : ℕ) (cpo : Bool) (prims : BlockPrims) :
    BlockVariantsOk (mkMochiTransformerBlock dim pooled cpo prims) := by
  cases cpo <;>
    simp [BlockVariantsOk, mkMochiTransformerBlock]

theorem Tensor3.shape_eq_iff (t s : Tensor3) :
    t.shape = s.shape ↔ t.d0 = s.d0 ∧ t.d1 = s.d1 ∧ t.d2 = s.d2 := by
  simp [Tensor3.shape, Prod.ext_iff]

theorem Tensor2.shape_eq_pair (g : Tensor2) (a b : ℕ) :
    g.shape = (a, b) ↔ g.d0 = a ∧ g.d1 = b := by
  simp [Tensor2.shape, Prod.ext_iff]

theorem bdim_self (a : ℕ) : bdim a a = some a := by
  simp [bdim]

theorem bdim_one_right (a : ℕ) : bdim a 1 = some a := by
  by_cases h : a = 1 <;> simp [bdim, h]

theorem bdim_one_left (a : ℕ) : bdim 1 a = some a := by
  by_cases h : a = 1 <;> simp [bdim, h]

/-- Existence and shape of a broadcast multiply, given the three dimension
broadcasts. -/
theorem mul3_shape_of (x y : Tensor3) (a b c : ℕ) (h0 : bdim x.d0 y.d0 = some a)
    (h1 : bdim x.d1 y.d1 = some b) (h2 : bdim x.d2 y.d2 = some c) :
    ∃ z, mul3 x y = some z ∧ z.d0 = a ∧ z.d1 = b ∧ z.d2 = c := by
  simp only [mul3, elemwise3, h0, h1, h2]
  exact ⟨_, rfl, rfl, rfl, rfl⟩

/-- Existence and shape of a broadcast addition, given the three dimension
broadcasts. -/
theorem add3_shape_of (x y : Tensor3) (a b c : ℕ) (h0 : bdim x.d0 y.d0 = some a)
    (h1 : bdim x.d1 y.d1 = some b) (h2 : bdim x.d2 y.d2 = some c) :
    ∃ z, add3 x y = some z ∧ z.d0 = a ∧ z.d1 = b ∧ z.d2 = c := by
  simp only [add3, elemwise3, h0, h1, h2]
  exact ⟨_, rfl, rfl, rfl, rfl⟩

/-- A broadcast multiply of a `(B, T, D)` tensor with a `(B, 1, D)` tensor
(the ubiquitous `gate.unsqueeze(1)` pattern) succeeds and keeps the left
shape. -/
theorem mul3_snd_mid1 (x y : Tensor3) (h0 : y.d0 = x.d0) (h1 : y.d1 = 1)
    (h2 : y.d2 = x.d2) :
    ∃ z, mul3 x y = some z ∧ z.shape = x.shape := by
  obtain ⟨z, hz, z0, z1, z2⟩ := mul3_shape_of x y x.d0 x.d1 x.d2
    (by rw [h0, bdim_self]) (by rw [h1, bdim_one_right]) (by rw [h2, bdim_self])
  exact ⟨z, hz, by simp [Tensor3.shape_eq_iff, z0, z1, z2]⟩

/-- Elementwise addition of equal-shaped tensors succeeds and keeps the
shape. -/
theorem add3_same (x y : Tensor3) (hy : y.shape = x.shape) :
    ∃ z, add3 x y = some z ∧ z.shape = x.shape := by
  obtain ⟨e0, e1, e2⟩ := (Tensor3.shape_eq_iff y x).1 hy
  obtain ⟨z, hz, z0, z1, z2⟩ := add3_shape_of x y x.d0 x.d1 x.d2
    (by rw [e0, bdim_self]) (by rw [e1, bdim_self]) (by rw [e2, bdim_self])
  exact ⟨z, hz, by simp [Tensor3.shape_eq_iff, z0, z1, z2]⟩

/-- Shape behavior of the text attention residual (source lines 117-119). -/
theorem textAttnResidual_shape (n2 : Tensor3 → Tensor3)
    (hn2 : ∀ x, (n2 x).shape = x.shape) (e ca : Tensor3) (g : Tensor2)
    (hca : ca.shape = e.shape) (hg0 : g.d0 = e.d0) (hg1 : g.d1 = e.d2) :
    ∃ z, mochiTextAttnResidual n2 e ca g = some z ∧ z.shape = e.shape := by
  obtain ⟨t, ht, hts⟩ := mul3_snd_mid1 (n2 ca) (unsqueeze1 (tanh2 g))
    (by simp [unsqueeze1, tanh2, hg0, (Tensor3.shape_eq_iff (n2 ca) e).1 ((hn2 ca).trans hca) |>.1])
    rfl
    (by simp [unsqueeze1, tanh2, hg1, ((Tensor3.shape_eq_iff (n2 ca) e).1 ((hn2 ca).trans hca)).2.2])
  obtain ⟨z, hz, hzs⟩ := add3_same e t (hts.trans ((hn2 ca).trans hca))
  exact ⟨z, by simp [mochiTextAttnResidual, ht, hz], hzs⟩

/-- Shape behavior of the text feed-forward input (source lines 120-122). -/
theorem textFFInput_shape (n3 : Tensor3 → Tensor3)
    (hn3 : ∀ x, (n3 x).shape = x.shape) (e : Tensor3) (s : Tensor2)
    (hs0 : s.d0 = e.d0) (hs1 : s.d1 = e.d2) :
    ∃ z, mochiTextFFInput n3 e s = some z ∧ z.shape = e.shape := by
  obtain ⟨t, ht, hts⟩ := mul3_snd_mid1 (n3 e) (onePlus3 (unsqueeze1 s))
    (by simpa [onePlus3, unsqueeze1, hs0] using ((Tensor3.shape_eq_iff (n3 e) e).1 (hn3 e)).1.symm)
    rfl
    (by simpa [onePlus3, unsqueeze1, hs1] using ((Tensor3.shape_eq_iff (n3 e) e).1 (hn3 e)).2.2.symm)
  obtain ⟨z, hz, hzs⟩ := add3_same e t (hts.trans (hn3 e))
  exact ⟨z, by simp [mochiTextFFInput, ht, hz], hzs⟩

/-- Shape behavior of the text feed-forward gated residual (source line 129,
`unsqueeze(0)`): succeeds when the text token count equals the batch size, or
either of them is 1, keeping batch and channel sizes. -/
theorem textFFResidual_shape (e cf : Tensor3) (g : Tensor2)
    (hcf : cf.shape = e.shape) (hg0 : g.d0 = e.d0) (hg1 : g.d1 = e.d2)
    (hcond : e.d1 = e.d0 ∨ e.d1 = 1 ∨ e.d0 = 1) :
    ∃ z, mochiTextFFResidual e cf g = some z ∧ z.d0 = e.d0 ∧ z.d2 = e.d2 ∧
      (z.d1 = z.d0 ∨ z.d1 = 1 ∨ z.d0 = 1) := by
  obtain ⟨c0, c1, c2⟩ := (Tensor3.shape_eq_iff cf e).1 hcf
  have hu0 : (unsqueeze0 (tanh2 g)).d0 = 1 := rfl
  have hu1 : (unsqueeze0 (tanh2 g)).d1 = e.d0 := by simp [unsqueeze0, tanh2, hg0]
  have hu2 : (unsqueeze0 (tanh2 g)).d2 = e.d2 := by simp [unsqueeze0, tanh2, hg1]
  rcases hcond with hTB | hT1 | hB1
  · obtain ⟨t, ht, t0, t1, t2⟩ := mul3_shape_of cf (unsqueeze0 (tanh2 g)) e.d0 e.d0 e.d2
      (by rw [c0, hu0, bdim_one_right]) (by rw [c1, hu1, hTB, bdim_self])
      (by rw [c2, hu2, bdim_self])
    obtain ⟨z, hz, z0, z1, z2⟩ := add3_shape_of e t e.d0 e.d0 e.d2
      (by rw [t0, bdim_self]) (by rw [t1, hTB, bdim_self]) (by rw [t2, bdim_self])
    exact ⟨z, by simp [mochiTextFFResidual, ht, hz], z0, z2, Or.inl (by rw [z0, z1])⟩
  · by_cases hB : e.d0 = 1
    · obtain ⟨t, ht, t0, t1, t2⟩ := mul3_shape_of cf (unsqueeze0 (tanh2 g)) 1 e.d1 e.d2
        (by rw [c0, hu0, hB, bdim_self]) (by rw [c1, hu1, hB, bdim_one_right])
        (by rw [c2, hu2, bdim_self])
      obtain ⟨z, hz, z0, z1, z2⟩ := add3_shape_of e t e.d0 e.d1 e.d2
        (by rw [t0, hB, bdim_self]) (by rw [t1, bdim_self]) (by rw [t2, bdim_self])
      exact ⟨z, by simp [mochiTextFFResidual, ht, hz], z0, z2,
        Or.inr (Or.inr (by rw [z0, hB]))⟩
    · obtain ⟨t, ht, t0, t1, t2⟩ := mul3_shape_of cf (unsqueeze0 (tanh2 g)) e.d0 e.d0 e.d2
        (by rw [c0, hu0, bdim_one_right]) (by rw [c1, hu1, hT1, bdim_one_left])
        (by rw [c2, hu2, bdim_self])
      obtain ⟨z, hz, z0, z1, z2⟩ := add3_shape_of e t e.d0 e.d0 e.d2
        (by rw [t0, bdim_self]) (by rw [t1, hT1, bdim_one_left]) (by rw [t2, bdim_self])
      exact ⟨z, by simp [mochiTextFFResidual, ht, hz], z0, z2, Or.inl (by rw [z0, z1])⟩
  · obtain ⟨t, ht, t0, t1, t2⟩ := mul3_shape_of cf (unsqueeze0 (tanh2 g)) 1 e.d1 e.d2
      (by rw [c0, hu0, hB1, bdim_self]) (by rw [c1, hu1, hB1, bdim_one_right])
      (by rw [c2, hu2, bdim_self])
    obtain ⟨z, hz, z0, z1, z2⟩ := add3_shape_of e t e.d0 e.d1 e.d2
      (by rw [t0, hB1, bdim_self]) (by rw [t1, bdim_self]) (by rw [t2, bdim_self])
    exact ⟨z, by simp [mochiTextFFResidual, ht, hz], z0, z2,
      Or.inr (Or.inr (by rw [z0, hB1]))⟩

/-- Propagation of shapes through one block forward call: the video stream
shape is preserved and the text stream keeps its batch and channel sizes,
provided the text token count is compatible with the line-129 gate broadcast
(token count equal to batch size, or either equal to 1). -/
theorem block_forward_shape (blk : MochiTransformerBlock)
    (hc : BlockContract blk) (hv : BlockVariantsOk blk)
    (h e : Tensor3) (temb : Tensor2) (rot : Option Rotary)
    (hcond : e.d1 = e.d0 ∨ e.d1 = 1 ∨ e.d0 = 1) :
    ∃ h2 e2, blk.forward h e temb rot = some (h2, e2) ∧
      h2.shape = h.shape ∧ e2.d0 = e.d0 ∧ e2.d2 = e.d2 ∧
      (e2.d1 = e2.d0 ∨ e2.d1 = 1 ∨ e2.d0 = 1) := by
  rcases hn1 : blk.norm1 h temb with ⟨nh, g1, s1, g2⟩
  have hcn1 := hc.norm1 h temb
  rw [hn1] at hcn1
  obtain ⟨hnh, hg1, hs1, hg2⟩ := hcn1
  obtain ⟨hg10, hg11⟩ := (Tensor2.shape_eq_pair g1 h.d0 h.d2).1 hg1
  obtain ⟨hs10, hs11⟩ := (Tensor2.shape_eq_pair s1 h.d0 h.d2).1 hs1
  obtain ⟨hg20, hg21⟩ := (Tensor2.shape_eq_pair g2 h.d0 h.d2).1 hg2
  cases hb : blk.context_pre_only with
  | true =>
    obtain ⟨lin, hlin⟩ := hv.1 hb
    rcases hA : blk.attn1 nh (lin e) rot with ⟨ah, ac⟩
    have hattn := hc.attn1 nh (lin e) rot
    rw [hA] at hattn
    have hah : ah.shape = h.shape := hattn.1.trans hnh
    obtain ⟨t1, ht1, ht1s⟩ := mul3_snd_mid1 (blk.norm2 ah) (unsqueeze1 (tanh2 g1))
      (by simp [unsqueeze1, tanh2, hg10,
        ((Tensor3.shape_eq_iff _ _).1 ((hc.norm2 ah).trans hah)).1])
      rfl
      (by simp [unsqueeze1, tanh2, hg11,
        ((Tensor3.shape_eq_iff _ _).1 ((hc.norm2 ah).trans hah)).2.2])
    obtain ⟨h1, hh1, hh1s⟩ := add3_same h t1 (ht1s.trans ((hc.norm2 ah).trans hah))
    obtain ⟨nhs, hnhs, hnhss⟩ := mul3_snd_mid1 (blk.norm3 h1) (onePlus3 (unsqueeze1 s1))
      (by simp [onePlus3, unsqueeze1, hs10,
        ((Tensor3.shape_eq_iff _ _).1 ((hc.norm3 h1).trans hh1s)).1])
      rfl
      (by simp [onePlus3, unsqueeze1, hs11,
        ((Tensor3.shape_eq_iff _ _).1 ((hc.norm3 h1).trans hh1s)).2.2])
    have hffs : (blk.ff nhs).shape = h.shape :=
      (hc.ff nhs).trans (hnhss.trans ((hc.norm3 h1).trans hh1s))
    obtain ⟨t2, ht2, ht2s⟩ := mul3_snd_mid1 (blk.ff nhs) (unsqueeze1 (tanh2 g2))
      (by simp [unsqueeze1, tanh2, hg20, ((Tensor3.shape_eq_iff _ _).1 hffs).1])
      rfl
      (by simp [unsqueeze1, tanh2, hg21, ((Tensor3.shape_eq_iff _ _).1 hffs).2.2])
    obtain ⟨h2, hh2, hh2s⟩ := add3_same h1 t2 ((ht2s.trans hffs).trans hh1s.symm)
    refine ⟨h2, e, ?_, hh2s.trans hh1s, rfl, rfl, hcond⟩
    simp [MochiTransformerBlock.forward, hn1, hb, hlin, ContextNorm.asLinear, hA,
      ht1, hh1, hnhs, ht2, hh2]
  | false =>
    obtain ⟨⟨nc, hnc⟩, f, hf⟩ := hv.2 hb
    rcases hncv : nc e temb with ⟨ne, eg1, es1, eg2⟩
    have hcm := hc.norm1_context_mod nc hnc e temb
    rw [hncv] at hcm
    obtain ⟨hne, heg1, hes1, heg2⟩ := hcm
    obtain ⟨heg10, heg11⟩ := (Tensor2.shape_eq_pair eg1 e.d0 e.d2).1 heg1
    obtain ⟨hes10, hes11⟩ := (Tensor2.shape_eq_pair es1 e.d0 e.d2).1 hes1
    obtain ⟨heg20, heg21⟩ := (Tensor2.shape_eq_pair eg2 e.d0 e.d2).1 heg2
    rcases hA : blk.attn1 nh ne rot with ⟨ah, ac⟩
    have hattn := hc.attn1 nh ne rot
    rw [hA] at hattn
    have hah : ah.shape = h.shape := hattn.1.trans hnh
    have hac : ac.shape = e.shape := hattn.2.trans hne
    obtain ⟨t1, ht1, ht1s⟩ := mul3_snd_mid1 (blk.norm2 ah) (unsqueeze1 (tanh2 g1))
      (by simp [unsqueeze1, tanh2, hg10,
        ((Tensor3.shape_eq_iff _ _).1 ((hc.norm2 ah).trans hah)).1])
      rfl
      (by simp [unsqueeze1, tanh2, hg11,
        ((Tensor3.shape_eq_iff _ _).1 ((hc.norm2 ah).trans hah)).2.2])
    obtain ⟨h1, hh1, hh1s⟩ := add3_same h t1 (ht1s.trans ((hc.norm2 ah).trans hah))
    obtain ⟨nhs, hnhs, hnhss⟩ := mul3_snd_mid1 (blk.norm3 h1) (onePlus3 (unsqueeze1 s1))
      (by simp [onePlus3, unsqueeze1, hs10,
        ((Tensor3.shape_eq_iff _ _).1 ((hc.norm3 h1).trans hh1s)).1])
      rfl
      (by simp [onePlus3, unsqueeze1, hs11,
        ((Tensor3.shape_eq_iff _ _).1 ((hc.norm3 h1).trans hh1s)).2.2])
    obtain ⟨e1, he1, he1s⟩ := textAttnResidual_shape blk.norm2_context hc.norm2_context
      e ac eg1 hac heg10 heg11
    obtain ⟨e10, e11, e12⟩ := (Tensor3.shape_eq_iff e1 e).1 he1s
    obtain ⟨ne2, hne2, hne2s⟩ := textFFInput_shape blk.norm3_context hc.norm3_context
      e1 es1 (hes10.trans e10.symm) (hes11.trans e12.symm)
    have hffs : (blk.ff nhs).shape = h.shape :=
      (hc.ff nhs).trans (hnhss.trans ((hc.norm3 h1).trans hh1s))
    obtain ⟨t2, ht2, ht2s⟩ := mul3_snd_mid1 (blk.ff nhs) (unsqueeze1 (tanh2 g2))
      (by simp [unsqueeze1, tanh2, hg20, ((Tensor3.shape_eq_iff _ _).1 hffs).1])
      rfl
      (by simp [unsqueeze1, tanh2, hg21, ((Tensor3.shape_eq_iff _ _).1 hffs).2.2])
    obtain ⟨h2, hh2, hh2s⟩ := add3_same h1 t2 ((ht2s.trans hffs).trans hh1s.symm)
    obtain ⟨e2, he2, he20, he22, he2c⟩ := textFFResidual_shape e1 (f ne2) eg2
      ((hc.ff_context f hf ne2).trans (hne2s.trans he1s) |>.trans he1s.symm)
      (heg20.trans e10.symm) (heg21.trans e12.symm)
      (by rw [e10, e11]; exact hcond)
    refine ⟨h2, e2, ?_, hh2s.trans hh1s, he20.trans e10, he22.trans e12, he2c⟩
    simp [MochiTransformerBlock.forward, hn1, hb, hnc, ContextNorm.asModulated, hncv,
      hA, ht1, hh1, hnhs, he1, hne2, ht2, hh2, hf, he2]

/-- Shape propagation through the sequential block stack (source lines
216-222). -/
theorem fold_blocks_shape (blocks : List MochiTransformerBlock)
    (temb : Tensor2) (rot : Option Rotary)
    (hall : ∀ blk ∈ blocks, BlockContract blk ∧ BlockVariantsOk blk)
    (h e : Tensor3)
    (hcond : e.d1 = e.d0 ∨ e.d1 = 1 ∨ e.d0 = 1) :
    ∃ h2 e2, List.foldlM
        (fun (st : Tensor3 × Tensor3) (block : MochiTransformerBlock) =>
          block.forward st.1 st.2 temb rot) (h, e) blocks = some (h2, e2) ∧
      h2.shape = h.shape := by
  induction blocks generalizing h e with
  | nil => exact ⟨h, e, rfl, rfl⟩
  | cons blk rest ih =>
    obtain ⟨hcb, hvb⟩ := hall blk (by simp)
    obtain ⟨h2, e2, hfwd, hs, _, _, hc2⟩ :=
      block_forward_shape blk hcb hvb h e temb rot hcond
    obtain ⟨h3, e3, hrest, hs3⟩ := ih (fun b hb => hall b (by simp [hb])) h2 e2 hc2
    exact ⟨h3, e3, by simp [List.foldlM_cons, hfwd, hrest], hs3.trans hs⟩

theorem unflatten0_shape (t : Tensor3) (b : ℕ) (hb : b ≠ 0) (hd : t.d0 % b = 0) :
    ∃ z, unflatten0 t b = some z ∧ z.d0 = b ∧ z.d1 = t.d0 / b ∧ z.d2 = t.d1 ∧
      z.d3 = t.d2 ∧
      ∀ i0 i1 i2 i3, z.val i0 i1 i2 i3 = t.val (i0 * (t.d0 / b) + i1) i2 i3 := by
  simp only [unflatten0, if_pos (And.intro hb hd)]
  exact ⟨_, rfl, rfl, rfl, rfl, rfl, fun _ _ _ _ => rfl⟩

theorem reshape3to7_shape (t : Tensor3) (b f ph pw p1 p2 : ℕ)
    (hk : b * f * ph * pw * p1 * p2 ≠ 0)
    (hd : (t.d0 * t.d1 * t.d2) % (b * f * ph * pw * p1 * p2) = 0) :
    ∃ z, reshape3to7 t b f ph pw p1 p2 = some z ∧ z.d0 = b ∧ z.d1 = f ∧
      z.d2 = ph ∧ z.d3 = pw ∧ z.d4 = p1 ∧ z.d5 = p2 ∧
      z.d6 = t.d0 * t.d1 * t.d2 / (b * f * ph * pw * p1 * p2) ∧
      ∀ i0 i1 i2 i3 i4 i5 i6 flat,
        flat = (((((i0 * f + i1) * ph + i2) * pw + i3) * p1 + i4) * p2 + i5) *
          (t.d0 * t.d1 * t.d2 / (b * f * ph * pw * p1 * p2)) + i6 →
        z.val i0 i1 i2 i3 i4 i5 i6 =
          t.val (flat / (t.d1 * t.d2)) (flat / t.d2 % t.d1) (flat % t.d2) := by
  simp only [reshape3to7, if_pos (And.intro hk hd)]
  exact ⟨_, rfl, rfl, rfl, rfl, rfl, rfl, rfl, rfl,
    fun _ _ _ _ _ _ _ _ hf => by rw [hf]⟩

theorem reshape7to5_shape (t : Tensor7) (b f h w : ℕ)
    (hk : b * f * h * w ≠ 0)
    (hd : (t.d0 * t.d1 * t.d2 * t.d3 * t.d4 * t.d5 * t.d6) % (b * f * h * w) = 0) :
    ∃ z, reshape7to5 t b f h w = some z ∧ z.d0 = b ∧
      z.d1 = t.d0 * t.d1 * t.d2 * t.d3 * t.d4 * t.d5 * t.d6 / (b * f * h * w) ∧
      z.d2 = f ∧ z.d3 = h ∧ z.d4 = w ∧
      ∀ i0 i1 i2 i3 i4 flat,
        flat = (((i0 * (t.d0 * t.d1 * t.d2 * t.d3 * t.d4 * t.d5 * t.d6 / (b * f * h * w))
          + i1) * f + i2) * h + i3) * w + i4 →
        z.val i0 i1 i2 i3 i4 =
          t.val (flat / (t.d1 * t.d2 * t.d3 * t.d4 * t.d5 * t.d6))
            (flat / (t.d2 * t.d3 * t.d4 * t.d5 * t.d6) % t.d1)
            (flat / (t.d3 * t.d4 * t.d5 * t.d6) % t.d2)
            (flat / (t.d4 * t.d5 * t.d6) % t.d3)
            (flat / (t.d5 * t.d6) % t.d4)
            (flat / t.d6 % t.d5)
            (flat % t.d6) := by
  simp only [reshape7to5, if_pos (And.intro hk hd)]
  exact ⟨_, rfl, rfl, rfl, rfl, rfl, rfl, fun _ _ _ _ _ _ hf => by rw [hf]⟩

/-- Shapes through the whole model forward pass, under the spec's contracts
for the external modules: with `height` and `width` divisible by the patch
size, all dimensions positive, and the text stream's token count compatible
with the line-129 gate broadcast, the forward succeeds and the output has
shape `(batch, oc, frames, height, width)` where `oc` is the channel count
the output projection was constructed with. -/
theorem mochiModel_forward_shape (m : MochiTransformer3DModel) (oc : ℕ)
    (x : Tensor5) (enc : Tensor3) (ts : Tensor1) (mask : Tensor2)
    (rot : Option Rotary)
    (hp : 0 < m.patch_size) (hB : 0 < x.d0) (hF : 0 < x.d2)
    (hH : 0 < x.d3) (hW : 0 < x.d4)
    (hdivH : x.d3 % m.patch_size = 0) (hdivW : x.d4 % m.patch_size = 0)
    (hblocks : ∀ blk ∈ m.transformer_blocks, BlockContract blk ∧ BlockVariantsOk blk)
    (hpe : ∀ x4 : Tensor4, (m.patch_embed x4).d0 = x4.d0 ∧
      (m.patch_embed x4).d1 = (x4.d2 / m.patch_size) * (x4.d3 / m.patch_size))
    (hcond : (m.time_embed ts enc mask).2.d1 = (m.time_embed ts enc mask).2.d0 ∨
      (m.time_embed ts enc mask).2.d1 = 1 ∨ (m.time_embed ts enc mask).2.d0 = 1)
    (hnormout : ∀ z t, (m.norm_out z t).shape = z.shape)
    (hproj : ∀ z : Tensor3, (m.proj_out z).d0 = z.d0 ∧ (m.proj_out z).d1 = z.d1 ∧
      (m.proj_out z).d2 = m.patch_size * m.patch_size * oc) :
    ∃ y, m.forward x enc ts mask rot = some y ∧
      y.shape = (x.d0, oc, x.d2, x.d3, x.d4) := by
  rcases hte : m.time_embed ts enc mask with ⟨temb, enc2⟩
  rw [hte] at hcond
  have hdvdH : m.patch_size ∣ x.d3 := Nat.dvd_of_mod_eq_zero hdivH
  have hdvdW : m.patch_size ∣ x.d4 := Nat.dvd_of_mod_eq_zero hdivW
  have hph : 0 < x.d3 / m.patch_size := Nat.div_pos (Nat.le_of_dvd hH hdvdH) hp
  have hpw : 0 < x.d4 / m.patch_size := Nat.div_pos (Nat.le_of_dvd hW hdvdW) hp
  obtain ⟨hpe0, hpe1⟩ := hpe (permuteFlattenFrames x)
  have hpe0x : (m.patch_embed (permuteFlattenFrames x)).d0 = x.d0 * x.d2 := hpe0
  have hpe1x : (m.patch_embed (permuteFlattenFrames x)).d1 =
      (x.d3 / m.patch_size) * (x.d4 / m.patch_size) := hpe1
  obtain ⟨t4, ht4, ht40, ht41, ht42, ht43, -⟩ :=
    unflatten0_shape (m.patch_embed (permuteFlattenFrames x)) x.d0
      hB.ne' (by rw [hpe0x]; exact Nat.mul_mod_right _ _)
  have ht41F : t4.d1 = x.d2 := by
    rw [ht41, hpe0x, Nat.mul_div_cancel_left _ hB]
  obtain ⟨h2, e2, hfold, hh2s⟩ := fold_blocks_shape m.transformer_blocks temb rot
    hblocks (flatten12 t4) enc2 hcond
  obtain ⟨h20, h21, h22⟩ := (Tensor3.shape_eq_iff h2 (flatten12 t4)).1 hh2s
  have hh20 : h2.d0 = x.d0 := by rw [h20]; exact ht40
  have hh21 : h2.d1 = x.d2 * ((x.d3 / m.patch_size) * (x.d4 / m.patch_size)) := by
    rw [h21]
    show t4.d1 * t4.d2 = _
    rw [ht41F, ht42, hpe1x]
  obtain ⟨hpr0, hpr1, hpr2⟩ := hproj (m.norm_out h2 temb)
  obtain ⟨hno0, hno1, hno2⟩ := (Tensor3.shape_eq_iff (m.norm_out h2 temb) h2).1
    (hnormout h2 temb)
  have hz0 : (m.proj_out (m.norm_out h2 temb)).d0 = x.d0 := by
    rw [hpr0, hno0, hh20]
  have hz1 : (m.proj_out (m.norm_out h2 temb)).d1 =
      x.d2 * ((x.d3 / m.patch_size) * (x.d4 / m.patch_size)) := by
    rw [hpr1, hno1, hh21]
  have hk1 : x.d0 * x.d2 * (x.d3 / m.patch_size) * (x.d4 / m.patch_size) *
      m.patch_size * m.patch_size ≠ 0 := by
    have := Nat.mul_pos (Nat.mul_pos (Nat.mul_pos (Nat.mul_pos
      (Nat.mul_pos hB hF) hph) hpw) hp) hp
    exact this.ne'
  have htot1 : (m.proj_out (m.norm_out h2 temb)).d0 *
      (m.proj_out (m.norm_out h2 temb)).d1 * (m.proj_out (m.norm_out h2 temb)).d2 =
      x.d0 * x.d2 * (x.d3 / m.patch_size) * (x.d4 / m.patch_size) *
        m.patch_size * m.patch_size * oc := by
    rw [hz0, hz1, hpr2]; ring
  obtain ⟨t7, ht7, ht70, ht71, ht72, ht73, ht74, ht75, ht76, -⟩ :=
    reshape3to7_shape (m.proj_out (m.norm_out h2 temb)) x.d0 x.d2
      (x.d3 / m.patch_size) (x.d4 / m.patch_size) m.patch_size m.patch_size hk1
      (by rw [htot1]; exact Nat.mul_mod_right _ _)
  have ht76oc : t7.d6 = oc := by
    rw [ht76, htot1, Nat.mul_div_cancel_left _ (Nat.pos_of_ne_zero hk1)]
  have hk2 : x.d0 * x.d2 * x.d3 * x.d4 ≠ 0 := by
    have := Nat.mul_pos (Nat.mul_pos (Nat.mul_pos hB hF) hH) hW
    exact this.ne'
  have hHp : x.d3 / m.patch_size * m.patch_size = x.d3 := Nat.div_mul_cancel hdvdH
  have hWp : x.d4 / m.patch_size * m.patch_size = x.d4 := Nat.div_mul_cancel hdvdW
  have htot2 : (permute0612435 t7).d0 * (permute0612435 t7).d1 *
      (permute0612435 t7).d2 * (permute0612435 t7).d3 * (permute0612435 t7).d4 *
      (permute0612435 t7).d5 * (permute0612435 t7).d6 =
      x.d0 * x.d2 * x.d3 * x.d4 * oc := by
    show t7.d0 * t7.d6 * t7.d1 * t7.d2 * t7.d4 * t7.d3 * t7.d5 = _
    rw [ht70, ht71, ht72, ht73, ht74, ht75, ht76oc]
    calc x.d0 * oc * x.d2 * (x.d3 / m.patch_size) * m.patch_size *
          (x.d4 / m.patch_size) * m.patch_size
        = x.d0 * x.d2 * (x.d3 / m.patch_size * m.patch_size) *
            (x.d4 / m.patch_size * m.patch_size) * oc := by ring
      _ = x.d0 * x.d2 * x.d3 * x.d4 * oc := by rw [hHp, hWp]
  obtain ⟨y, hy, hy0, hy1, hy2, hy3, hy4, -⟩ :=
    reshape7to5_shape (permute0612435 t7) x.d0 x.d2 x.d3 x.d4 hk2
      (by rw [htot2]; exact Nat.mul_mod_right _ _)
  have hy1oc : y.d1 = oc := by
    rw [hy1, htot2, Nat.mul_div_cancel_left _ (Nat.pos_of_ne_zero hk2)]
  refine ⟨y, ?_, by simp [Tensor5.shape, hy0, hy1oc, hy2, hy3, hy4]⟩
  simp [MochiTransformer3DModel.forward, hte, ht4, hfold, ht7, hy]

theorem encode_div (a r K : ℕ) (hK : 0 < K) (hr : r < K) : (a * K + r) / K = a := by
  rw [mul_comm, Nat.mul_add_div hK, Nat.div_eq_of_lt hr, Nat.add_zero]

theorem encode_mod (a r K : ℕ) (hr : r < K) : (a * K + r) % K = r := by
  rw [mul_comm, Nat.mul_add_mod, Nat.mod_eq_of_lt hr]

theorem encode_lt (i j A B2 : ℕ) (hi : i < A) (hj : j < B2) : i * B2 + j < A * B2 := by
  calc i * B2 + j < i * B2 + B2 := by omega
    _ = (i + 1) * B2 := by ring
    _ ≤ A * B2 := Nat.mul_le_mul_right B2 hi

/-- Decode identities for the final unpatchify reshape (source line 230): the
row-major flat index over `(batch, C, F2, PH*P, PW*P)` decomposes against the
permuted 7-axis shape `(batch, C, F2, PH, P, PW, P)`. -/
theorem decode5to7 (C F2 PH PW P : ℕ) (b c f hq hr wq wr : ℕ)
    (hc : c < C) (hf : f < F2) (hhq : hq < PH) (hhr : hr < P)
    (hwq : wq < PW) (hwr : wr < P) :
    ((((b * C + c) * F2 + f) * (PH * P) + (hq * P + hr)) * (PW * P) + (wq * P + wr)) /
        (C * F2 * PH * P * PW * P) = b ∧
    ((((b * C + c) * F2 + f) * (PH * P) + (hq * P + hr)) * (PW * P) + (wq * P + wr)) /
        (F2 * PH * P * PW * P) % C = c ∧
    ((((b * C + c) * F2 + f) * (PH * P) + (hq * P + hr)) * (PW * P) + (wq * P + wr)) /
        (PH * P * PW * P) % F2 = f ∧
    ((((b * C + c) * F2 + f) * (PH * P) + (hq * P + hr)) * (PW * P) + (wq * P + wr)) /
        (P * PW * P) % PH = hq ∧
    ((((b * C + c) * F2 + f) * (PH * P) + (hq * P + hr)) * (PW * P) + (wq * P + wr)) /
        (PW * P) % P = hr ∧
    ((((b * C + c) * F2 + f) * (PH * P) + (hq * P + hr)) * (PW * P) + (wq * P + wr)) /
        P % PW = wq ∧
    ((((b * C + c) * F2 + f) * (PH * P) + (hq * P + hr)) * (PW * P) + (wq * P + wr)) %
        P = wr := by
  have L1 : wq * P + wr < PW * P := encode_lt _ _ _ _ hwq hwr
  have L2 : hq * P + hr < PH * P := encode_lt _ _ _ _ hhq hhr
  have Bcf : c * F2 + f < C * F2 := encode_lt _ _ _ _ hc hf
  refine ⟨?_, ?_, ?_, ?_, ?_, ?_, ?_⟩
  · have h1 : (((b * C + c) * F2 + f) * (PH * P) + (hq * P + hr)) * (PW * P) +
        (wq * P + wr) = b * (C * F2 * PH * P * PW * P) +
        (((c * F2 + f) * (PH * P) + (hq * P + hr)) * (PW * P) + (wq * P + wr)) := by ring
    have r1 : ((c * F2 + f) * (PH * P) + (hq * P + hr)) * (PW * P) + (wq * P + wr) <
        C * F2 * PH * P * PW * P := by
      have hZ := encode_lt _ _ _ _ (encode_lt _ _ _ _ Bcf L2) L1
      exact lt_of_lt_of_eq hZ (by ring)
    rw [h1]
    exact encode_div _ _ _ (Nat.lt_of_le_of_lt (Nat.zero_le _) r1) r1
  · have h2 : (((b * C + c) * F2 + f) * (PH * P) + (hq * P + hr)) * (PW * P) +
        (wq * P + wr) = (b * C + c) * (F2 * PH * P * PW * P) +
        ((f * (PH * P) + (hq * P + hr)) * (PW * P) + (wq * P + wr)) := by ring
    have r2 : (f * (PH * P) + (hq * P + hr)) * (PW * P) + (wq * P + wr) <
        F2 * PH * P * PW * P := by
      have hZ := encode_lt _ _ _ _ (encode_lt _ _ _ _ hf L2) L1
      exact lt_of_lt_of_eq hZ (by ring)
    rw [h2, encode_div _ _ _ (Nat.lt_of_le_of_lt (Nat.zero_le _) r2) r2]
    exact encode_mod _ _ _ hc
  · have h3 : (((b * C + c) * F2 + f) * (PH * P) + (hq * P + hr)) * (PW * P) +
        (wq * P + wr) = ((b * C + c) * F2 + f) * (PH * P * PW * P) +
        ((hq * P + hr) * (PW * P) + (wq * P + wr)) := by ring
    have r3 : (hq * P + hr) * (PW * P) + (wq * P + wr) < PH * P * PW * P := by
      have hZ := encode_lt _ _ _ _ L2 L1
      exact lt_of_lt_of_eq hZ (by ring)
    rw [h3, encode_div _ _ _ (Nat.lt_of_le_of_lt (Nat.zero_le _) r3) r3]
    exact encode_mod _ _ _ hf
  · have h4 : (((b * C + c) * F2 + f) * (PH * P) + (hq * P + hr)) * (PW * P) +
        (wq * P + wr) = (((b * C + c) * F2 + f) * PH + hq) * (P * PW * P) +
        (hr * (PW * P) + (wq * P + wr)) := by ring
    have r4 : hr * (PW * P) + (wq * P + wr) < P * PW * P := by
      have hZ := encode_lt _ _ _ _ hhr L1
      exact lt_of_lt_of_eq hZ (by ring)
    rw [h4, encode_div _ _ _ (Nat.lt_of_le_of_lt (Nat.zero_le _) r4) r4]
    exact encode_mod _ _ _ hhq
  · have h5 : (((b * C + c) * F2 + f) * (PH * P) + (hq * P + hr)) * (PW * P) +
        (wq * P + wr) = ((((b * C + c) * F2 + f) * PH + hq) * P + hr) * (PW * P) +
        (wq * P + wr) := by ring
    rw [h5, encode_div _ _ _ (Nat.lt_of_le_of_lt (Nat.zero_le _) L1) L1]
    exact encode_mod _ _ _ hhr
  · have h6 : (((b * C + c) * F2 + f) * (PH * P) + (hq * P + hr)) * (PW * P) +
        (wq * P + wr) = ((((b * C + c) * F2 + f) * (PH * P) + (hq * P + hr)) * PW + wq) *
        P + wr := by ring
    rw [h6, encode_div _ _ _ (Nat.lt_of_le_of_lt (Nat.zero_le _) hwr) hwr]
    exact encode_mod _ _ _ hwq
  · have h7 : (((b * C + c) * F2 + f) * (PH * P) + (hq * P + hr)) * (PW * P) +
        (wq * P + wr) = ((((b * C + c) * F2 + f) * (PH * P) + (hq * P + hr)) * PW + wq) *
        P + wr := by ring
    rw [h7]
    exact encode_mod _ _ _ hwr

/-- Decode identities for the patchify-side flat index (source line 228
read back through the token stream laid out by lines 212-214): the row-major
flat index over `(batch, F2, PH, PW, P, P, C)` decomposes against the token
layout `(batch, F2 * (PH * PW), P * P * C)`. -/
theorem decode7to3 (C F2 PH PW P : ℕ) (b f hq wq hr wr c : ℕ)
    (hc : c < C) (hf : f < F2) (hhq : hq < PH) (hhr : hr < P)
    (hwq : wq < PW) (hwr : wr < P) :
    ((((((b * F2 + f) * PH + hq) * PW + wq) * P + hr) * P + wr) * C + c) /
        (F2 * (PH * PW) * (P * P * C)) = b ∧
    ((((((b * F2 + f) * PH + hq) * PW + wq) * P + hr) * P + wr) * C + c) /
        (P * P * C) % (F2 * (PH * PW)) = f * (PH * PW) + (hq * PW + wq) ∧
    ((((((b * F2 + f) * PH + hq) * PW + wq) * P + hr) * P + wr) * C + c) %
        (P * P * C) = (hr * P + wr) * C + c := by
  have Lp : hr * P + wr < P * P := encode_lt _ _ _ _ hhr hwr
  have Le : (hr * P + wr) * C + c < P * P * C := encode_lt _ _ _ _ Lp hc
  have Ls : hq * PW + wq < PH * PW := encode_lt _ _ _ _ hhq hwq
  have Lt : f * (PH * PW) + (hq * PW + wq) < F2 * (PH * PW) := encode_lt _ _ _ _ hf Ls
  refine ⟨?_, ?_, ?_⟩
  · have h1 : (((((b * F2 + f) * PH + hq) * PW + wq) * P + hr) * P + wr) * C + c =
        b * (F2 * (PH * PW) * (P * P * C)) +
        (((((f * PH + hq) * PW + wq) * P + hr) * P + wr) * C + c) := by ring
    have r1 : ((((f * PH + hq) * PW + wq) * P + hr) * P + wr) * C + c <
        F2 * (PH * PW) * (P * P * C) := by
      have hS := encode_lt _ _ _ _ (encode_lt _ _ _ _
        (encode_lt _ _ _ _ (encode_lt _ _ _ _ hf hhq) hwq) hhr) hwr
      have hZ := encode_lt _ _ _ _ hS hc
      exact lt_of_lt_of_eq hZ (by ring)
    rw [h1]
    exact encode_div _ _ _ (Nat.lt_of_le_of_lt (Nat.zero_le _) r1) r1
  · have h2 : (((((b * F2 + f) * PH + hq) * PW + wq) * P + hr) * P + wr) * C + c =
        (((b * F2 + f) * PH + hq) * PW + wq) * (P * P * C) +
        ((hr * P + wr) * C + c) := by ring
    have h3 : ((b * F2 + f) * PH + hq) * PW + wq =
        b * (F2 * (PH * PW)) + (f * (PH * PW) + (hq * PW + wq)) := by ring
    rw [h2, encode_div _ _ _ (Nat.lt_of_le_of_lt (Nat.zero_le _) Le) Le, h3]
    exact encode_mod _ _ _ Lt
  · have h2 : (((((b * F2 + f) * PH + hq) * PW + wq) * P + hr) * P + wr) * C + c =
        (((b * F2 + f) * PH + hq) * PW + wq) * (P * P * C) +
        ((hr * P + wr) * C + c) := by ring
    rw [h2]
    exact encode_mod _ _ _ Le

/-- The block stack (source lines 216-222) acts as the identity when every
block does. -/
theorem fold_blocks_id (blocks : List MochiTransformerBlock)
    (temb : Tensor2) (rot : Option Rotary)
    (hid : ∀ blk ∈ blocks, ∀ h e, blk.forward h e temb rot = some (h, e))
    (h e : Tensor3) :
    List.foldlM (fun (st : Tensor3 × Tensor3) (block : MochiTransformerBlock) =>
      block.forward st.1 st.2 temb rot) (h, e) blocks = some (h, e) := by
  induction blocks generalizing h e with
  | nil => rfl
  | cons blk rest ih =>
    simp [List.foldlM_cons, hid blk (by simp) h e,
      ih (fun b hb => hid b (by simp [hb]))]

/-- C5: for every 5-D input whose height and width are divisible by the patch
size (all dimensions positive), the unpatchify stage of the model forward
(source lines 228-230: reshape to `(batch, frames, post_h, post_w, p, p, c)`,
permute, reshape) exactly inverts the patchify stage (source lines 212-214:
frames folded into batch, patch embedding, frames restored into the token
axis): around an identity-acting block stack (which covers `N = 0`), with the
patch embedding acting as the identity patch extraction and identity output
norm and projection, the forward reproduces the input tensor exactly — patch
rows and columns reassemble in the same row-major order they were split. -/
theorem mochi_C5 (m : MochiTransformer3DModel)
    (x : Tensor5) (enc : Tensor3) (ts : Tensor1) (mask : Tensor2) (rot : Option Rotary)
    (hp : 0 < m.patch_size) (hB : 0 < x.d0) (hF : 0 < x.d2)
    (hH : 0 < x.d3) (hW : 0 < x.d4)
    (hdivH : x.d3 % m.patch_size = 0) (hdivW : x.d4 % m.patch_size = 0)
    (hpe : m.patch_embed = identityPatchEmbed m.patch_size)
    (hno : ∀ z t, m.norm_out z t = z)
    (hpo : ∀ z, m.proj_out z = z)
    (hid : ∀ blk ∈ m.transformer_blocks, ∀ h2 e2 t2 r2,
      blk.forward h2 e2 t2 r2 = some (h2, e2)) :
    ∃ y, m.forward x enc ts mask rot = some y ∧
      y.d0 = x.d0 ∧ y.d1 = x.d1 ∧ y.d2 = x.d2 ∧ y.d3 = x.d3 ∧ y.d4 = x.d4 ∧
      ∀ b c f h w, b < x.d0 → c < x.d1 → f < x.d2 → h < x.d3 → w < x.d4 →
        y.val b c f h w = x.val b c f h w := by
  rcases hte : m.time_embed ts enc mask with ⟨temb, enc2⟩
  have hdvdH : m.patch_size ∣ x.d3 := Nat.dvd_of_mod_eq_zero hdivH
  have hdvdW : m.patch_size ∣ x.d4 := Nat.dvd_of_mod_eq_zero hdivW
  have hph : 0 < x.d3 / m.patch_size := Nat.div_pos (Nat.le_of_dvd hH hdvdH) hp
  have hpw : 0 < x.d4 / m.patch_size := Nat.div_pos (Nat.le_of_dvd hW hdvdW) hp
  have hHp : x.d3 / m.patch_size * m.patch_size = x.d3 := Nat.div_mul_cancel hdvdH
  have hWp : x.d4 / m.patch_size * m.patch_size = x.d4 := Nat.div_mul_cancel hdvdW
  have hpe0 : (m.patch_embed (permuteFlattenFrames x)).d0 = x.d0 * x.d2 := by
    rw [hpe]; rfl
  have hpe1 : (m.patch_embed (permuteFlattenFrames x)).d1 =
      x.d3 / m.patch_size * (x.d4 / m.patch_size) := by rw [hpe]; rfl
  have hpe2 : (m.patch_embed (permuteFlattenFrames x)).d2 =
      m.patch_size * m.patch_size * x.d1 := by rw [hpe]; rfl
  have hpev : ∀ bf tok e, (m.patch_embed (permuteFlattenFrames x)).val bf tok e =
      x.val (bf / x.d2) (e % x.d1) (bf % x.d2)
        (tok / (x.d4 / m.patch_size) * m.patch_size + e / (x.d1 * m.patch_size))
        (tok % (x.d4 / m.patch_size) * m.patch_size + e / x.d1 % m.patch_size) := by
    rw [hpe]; intro bf tok e; rfl
  have hQ : (m.patch_embed (permuteFlattenFrames x)).d0 / x.d0 = x.d2 := by
    rw [hpe0]; exact Nat.mul_div_cancel_left _ hB
  obtain ⟨t4, ht4, ht40, ht41, ht42, ht43, ht4v⟩ :=
    unflatten0_shape (m.patch_embed (permuteFlattenFrames x)) x.d0 hB.ne'
      (by rw [hpe0]; exact Nat.mul_mod_right _ _)
  rw [hQ] at ht41 ht4v
  rw [hpe1] at ht42
  rw [hpe2] at ht43
  have hh30 : (flatten12 t4).d0 = x.d0 := ht40
  have hh31 : (flatten12 t4).d1 =
      x.d2 * (x.d3 / m.patch_size * (x.d4 / m.patch_size)) := by
    show t4.d1 * t4.d2 = _
    rw [ht41, ht42]
  have hh32 : (flatten12 t4).d2 = m.patch_size * m.patch_size * x.d1 := ht43
  have hfold := fold_blocks_id m.transformer_blocks temb rot
    (fun blk hbm h2 e2 => hid blk hbm h2 e2 temb rot) (flatten12 t4) enc2
  have hk1 : x.d0 * x.d2 * (x.d3 / m.patch_size) * (x.d4 / m.patch_size) *
      m.patch_size * m.patch_size ≠ 0 :=
    (Nat.mul_pos (Nat.mul_pos (Nat.mul_pos (Nat.mul_pos
      (Nat.mul_pos hB hF) hph) hpw) hp) hp).ne'
  have htot1 : (flatten12 t4).d0 * (flatten12 t4).d1 * (flatten12 t4).d2 =
      x.d0 * x.d2 * (x.d3 / m.patch_size) * (x.d4 / m.patch_size) *
        m.patch_size * m.patch_size * x.d1 := by
    rw [hh30, hh31, hh32]; ring
  obtain ⟨t7, ht7, ht70, ht71, ht72, ht73, ht74, ht75, ht76, ht7v⟩ :=
    reshape3to7_shape (flatten12 t4) x.d0 x.d2 (x.d3 / m.patch_size)
      (x.d4 / m.patch_size) m.patch_size m.patch_size hk1
      (by rw [htot1]; exact Nat.mul_mod_right _ _)
  have hc7 : (flatten12 t4).d0 * (flatten12 t4).d1 * (flatten12 t4).d2 /
      (x.d0 * x.d2 * (x.d3 / m.patch_size) * (x.d4 / m.patch_size) *
        m.patch_size * m.patch_size) = x.d1 := by
    rw [htot1]; exact Nat.mul_div_cancel_left _ (Nat.pos_of_ne_zero hk1)
  rw [hc7] at ht76 ht7v
  rw [hh31, hh32] at ht7v
  have hk2 : x.d0 * x.d2 * x.d3 * x.d4 ≠ 0 :=
    (Nat.mul_pos (Nat.mul_pos (Nat.mul_pos hB hF) hH) hW).ne'
  have hperm0 : (permute0612435 t7).d0 = x.d0 := ht70
  have hperm1 : (permute0612435 t7).d1 = x.d1 := ht76
  have hperm2 : (permute0612435 t7).d2 = x.d2 := ht71
  have hperm3 : (permute0612435 t7).d3 = x.d3 / m.patch_size := ht72
  have hperm4 : (permute0612435 t7).d4 = m.patch_size := ht74
  have hperm5 : (permute0612435 t7).d5 = x.d4 / m.patch_size := ht73
  have hperm6 : (permute0612435 t7).d6 = m.patch_size := ht75
  have htot2 : (permute0612435 t7).d0 * (permute0612435 t7).d1 *
      (permute0612435 t7).d2 * (permute0612435 t7).d3 * (permute0612435 t7).d4 *
      (permute0612435 t7).d5 * (permute0612435 t7).d6 =
      x.d0 * x.d2 * x.d3 * x.d4 * x.d1 := by
    rw [hperm0, hperm1, hperm2, hperm3, hperm4, hperm5, hperm6]
    calc x.d0 * x.d1 * x.d2 * (x.d3 / m.patch_size) * m.patch_size *
        (x.d4 / m.patch_size) * m.patch_size
        = x.d0 * x.d2 * (x.d3 / m.patch_size * m.patch_size) *
            (x.d4 / m.patch_size * m.patch_size) * x.d1 := by ring
      _ = x.d0 * x.d2 * x.d3 * x.d4 * x.d1 := by rw [hHp, hWp]
  obtain ⟨y, hy, hy0, hy1, hy2, hy3, hy4, hyv⟩ :=
    reshape7to5_shape (permute0612435 t7) x.d0 x.d2 x.d3 x.d4 hk2
      (by rw [htot2]; exact Nat.mul_mod_right _ _)
  have hc2 : (permute0612435 t7).d0 * (permute0612435 t7).d1 *
      (permute0612435 t7).d2 * (permute0612435 t7).d3 * (permute0612435 t7).d4 *
      (permute0612435 t7).d5 * (permute0612435 t7).d6 /
      (x.d0 * x.d2 * x.d3 * x.d4) = x.d1 := by
    rw [htot2]; exact Nat.mul_div_cancel_left _ (Nat.pos_of_ne_zero hk2)
  rw [hc2] at hy1 hyv
  rw [hperm1, hperm2, hperm3, hperm4, hperm5, hperm6] at hyv
  refine ⟨y, ?_, hy0, hy1, hy2, hy3, hy4, ?_⟩
  · simp [MochiTransformer3DModel.forward, hte, ht4, hfold, hno, hpo, ht7, hy]
  · intro b c f h w hb hcx hfx hh hw
    have hCpos : 0 < x.d1 := Nat.lt_of_le_of_lt (Nat.zero_le _) hcx
    have hhq : h / m.patch_size < x.d3 / m.patch_size :=
      Nat.div_lt_div_of_lt_of_dvd hdvdH hh
    have hwq : w / m.patch_size < x.d4 / m.patch_size :=
      Nat.div_lt_div_of_lt_of_dvd hdvdW hw
    have hhr : h % m.patch_size < m.patch_size := Nat.mod_lt _ hp
    have hwr : w % m.patch_size < m.patch_size := Nat.mod_lt _ hp
    have h5 := hyv b c f h w _ rfl
    have hsplit : (((b * x.d1 + c) * x.d2 + f) * x.d3 + h) * x.d4 + w =
        (((b * x.d1 + c) * x.d2 + f) * (x.d3 / m.patch_size * m.patch_size) +
          (h / m.patch_size * m.patch_size + h % m.patch_size)) *
          (x.d4 / m.patch_size * m.patch_size) +
          (w / m.patch_size * m.patch_size + w % m.patch_size) := by
      rw [hHp, hWp, Nat.div_add_mod' h m.patch_size, Nat.div_add_mod' w m.patch_size]
    rw [hsplit] at h5
    obtain ⟨d50, d51, d52, d53, d54, d55, d56⟩ :=
      decode5to7 x.d1 x.d2 (x.d3 / m.patch_size) (x.d4 / m.patch_size) m.patch_size
        b c f (h / m.patch_size) (h % m.patch_size) (w / m.patch_size)
        (w % m.patch_size) hcx hfx hhq hhr hwq hwr
    rw [d50, d51, d52, d53, d54, d55, d56] at h5
    simp only [permute0612435] at h5
    have h7 := ht7v b f (h / m.patch_size) (w / m.patch_size) (h % m.patch_size)
      (w % m.patch_size) c _ rfl
    obtain ⟨d70, d71, d72⟩ := decode7to3 x.d1 x.d2 (x.d3 / m.patch_size)
      (x.d4 / m.patch_size) m.patch_size b f (h / m.patch_size) (w / m.patch_size)
      (h % m.patch_size) (w % m.patch_size) c hcx hfx hhq hhr hwq hwr
    rw [d70, d71, d72] at h7
    have hfl : ∀ b2 tt e2, (flatten12 t4).val b2 tt e2 =
        t4.val b2 (tt / t4.d2) (tt % t4.d2) e2 := fun _ _ _ => rfl
    rw [hfl, ht42] at h7
    have hspos : 0 < x.d3 / m.patch_size * (x.d4 / m.patch_size) :=
      Nat.mul_pos hph hpw
    have hslt : h / m.patch_size * (x.d4 / m.patch_size) + w / m.patch_size <
        x.d3 / m.patch_size * (x.d4 / m.patch_size) := encode_lt _ _ _ _ hhq hwq
    have htt1 : (f * (x.d3 / m.patch_size * (x.d4 / m.patch_size)) +
        (h / m.patch_size * (x.d4 / m.patch_size) + w / m.patch_size)) /
        (x.d3 / m.patch_size * (x.d4 / m.patch_size)) = f :=
      encode_div _ _ _ hspos hslt
    have htt2 : (f * (x.d3 / m.patch_size * (x.d4 / m.patch_size)) +
        (h / m.patch_size * (x.d4 / m.patch_size) + w / m.patch_size)) %
        (x.d3 / m.patch_size * (x.d4 / m.patch_size)) =
        h / m.patch_size * (x.d4 / m.patch_size) + w / m.patch_size :=
      encode_mod _ _ _ hslt
    rw [htt1, htt2, ht4v, hpev] at h7
    have hbf1 : (b * x.d2 + f) / x.d2 = b := encode_div _ _ _ hF hfx
    have hbf2 : (b * x.d2 + f) % x.d2 = f := encode_mod _ _ _ hfx
    have he1 : ((h % m.patch_size * m.patch_size + w % m.patch_size) * x.d1 + c) %
        x.d1 = c := encode_mod _ _ _ hcx
    have he5 : ((h % m.patch_size * m.patch_size + w % m.patch_size) * x.d1 + c) /
        x.d1 = h % m.patch_size * m.patch_size + w % m.patch_size :=
      encode_div _ _ _ hCpos hcx
    have he3 : (h % m.patch_size * m.patch_size + w % m.patch_size) * x.d1 + c =
        h % m.patch_size * (x.d1 * m.patch_size) +
          (w % m.patch_size * x.d1 + c) := by ring
    have he3b : w % m.patch_size * x.d1 + c < x.d1 * m.patch_size :=
      lt_of_lt_of_eq (encode_lt _ _ _ _ hwr hcx) (mul_comm _ _)
    have he4 : ((h % m.patch_size * m.patch_size + w % m.patch_size) * x.d1 + c) /
        (x.d1 * m.patch_size) = h % m.patch_size := by
      rw [he3]
      exact encode_div _ _ _ (Nat.lt_of_le_of_lt (Nat.zero_le _) he3b) he3b
    have he6 : (h % m.patch_size * m.patch_size + w % m.patch_size) %
        m.patch_size = w % m.patch_size := encode_mod _ _ _ hwr
    have htok1 : (h / m.patch_size * (x.d4 / m.patch_size) + w / m.patch_size) /
        (x.d4 / m.patch_size) = h / m.patch_size := encode_div _ _ _ hpw hwq
    have htok2 : (h / m.patch_size * (x.d4 / m.patch_size) + w / m.patch_size) %
        (x.d4 / m.patch_size) = w / m.patch_size := encode_mod _ _ _ hwq
    rw [hbf1, hbf2, he1, he4, he5, he6, htok1, htok2, Nat.div_add_mod' h m.patch_size,
      Nat.div_add_mod' w m.patch_size] at h7
    exact h5.trans h7

/-- An all-zero 2-D tensor of the given shape (concrete modulation stub). -/
noncomputable def zeros2 (a b : ℕ) : Tensor2 := ⟨a, b, fun _ _ => 0⟩

/-- An all-zero `(1, 1, 1)` 3-D tensor. -/
noncomputable def t3zero : Tensor3 := ⟨1, 1, 1, fun _ _ _ => 0⟩

/-- An all-one `(1, 1, 1)` 3-D tensor. -/
noncomputable def t3one : Tensor3 := ⟨1, 1, 1, fun _ _ _ => 1⟩

/-- An all-zero `(2, 3, 1)` 3-D tensor (batch 2, three text tokens). -/
noncomputable def e23z : Tensor3 := ⟨2, 3, 1, fun _ _ _ => 0⟩

/-- Concrete shape-correct stand-ins for the external block primitives: the
adaptive norms return their input and zero modulation vectors of the
contractual `(batch, dim)` shape, attention returns its inputs, and the
remaining modules are identities. -/
noncomputable def trivPrims : BlockPrims where
  norm1 := fun x _ => (x, zeros2 x.d0 x.d2, zeros2 x.d0 x.d2, zeros2 x.d0 x.d2)
  norm1_context_mod := fun x _ => (x, zeros2 x.d0 x.d2, zeros2 x.d0 x.d2, zeros2 x.d0 x.d2)
  norm1_context_lin := fun x => x
  attn1 := fun a b _ => (a, b)
  norm2 := fun x => x
  norm2_context := fun x => x
  norm3 := fun x => x
  norm3_context := fun x => x
  ff := fun x => x
  ff_context := fun x => x

theorem trivPrims_contract (dim pooled : ℕ) (cpo : Bool) :
    BlockContract (mkMochiTransformerBlock dim pooled cpo trivPrims) := by
  constructor
  · exact fun x t => ⟨rfl, rfl, rfl, rfl⟩
  · intro nc hnc x t
    cases cpo with
    | true => exact absurd hnc (by simp [mkMochiTransformerBlock])
    | false =>
      have hnc2 : trivPrims.norm1_context_mod = nc := by
        simpa [mkMochiTransformerBlock] using hnc
      rw [← hnc2]
      exact ⟨rfl, rfl, rfl, rfl⟩
  · exact fun a b r => ⟨rfl, rfl⟩
  · exact fun x => rfl
  · exact fun x => rfl
  · exact fun x => rfl
  · exact fun x => rfl
  · exact fun x => rfl
  · intro f hf x
    cases cpo with
    | true => exact absurd hf (by simp [mkMochiTransformerBlock])
    | false =>
      have hf2 : trivPrims.ff_context = f := by
        simpa [mkMochiTransformerBlock] using hf
      rw [← hf2]
      rfl

/-- A time-embedding stub that passes the caption stream through unchanged
and returns a `(1, 1)` conditioning vector. -/
noncomputable def timeEmbedPass : Tensor1 → Tensor3 → Tensor2 → Tensor2 × Tensor3 :=
  fun _ e _ => (zeros2 1 1, e)

/-- Blocks of a model built from `trivPrims` satisfy the shape contracts and
the construction invariant. -/
theorem mk_model_blocks_ok (p nah ahd nlayers pooled ic : ℕ) (ocs : Option ℕ)
    (pfv : ℕ → ℕ → ℕ → ℝ) (pe : Tensor4 → Tensor3)
    (te : Tensor1 → Tensor3 → Tensor2 → Tensor2 × Tensor3)
    (no : Tensor3 → Tensor2 → Tensor3) (po : Tensor3 → Tensor3) :
    ∀ blk ∈ (mkMochiTransformer3DModel p nah ahd nlayers pooled ic ocs pfv pe te
      (fun _ => trivPrims) no po).transformer_blocks,
      BlockContract blk ∧ BlockVariantsOk blk := by
  intro blk hblk
  simp only [mkMochiTransformer3DModel, List.mem_map] at hblk
  obtain ⟨i, hi, rfl⟩ := hblk
  exact ⟨trivPrims_contract _ _ _, mk_block_variants_ok _ _ _ _⟩

/-- C7: the model forward output does not depend on the `pos_frequencies`
parameter (source line 173): replacing it by any other value, with all other
fields identical, leaves the returned tensor identical — the parameter is
present but never consumed in the forward computation (source lines
195-234). -/
theorem mochi_C7 (m : MochiTransformer3DModel) (pf : Tensor3)
    (x : Tensor5) (enc : Tensor3) (ts : Tensor1) (mask : Tensor2)
    (rot : Option Rotary) :
    ({ m with pos_frequencies := pf } : MochiTransformer3DModel).forward
        x enc ts mask rot = m.forward x enc ts mask rot := rfl

/-- C8: for every number of layers, the model constructor builds exactly
`num_layers` blocks and sets `context_pre_only = true` exactly for the block
at index `num_layers - 1` (source lines 175-188); in particular for a single
layer the sole block is terminal. -/
theorem mochi_C8 (p nah ahd nlayers pooled ic : ℕ) (ocs : Option ℕ)
    (pfv : ℕ → ℕ → ℕ → ℝ) (pe : Tensor4 → Tensor3)
    (te : Tensor1 → Tensor3 → Tensor2 → Tensor2 × Tensor3)
    (env : ℕ → BlockPrims)
    (no : Tensor3 → Tensor2 → Tensor3) (po : Tensor3 → Tensor3) :
    (mkMochiTransformer3DModel p nah ahd nlayers pooled ic ocs pfv pe te env
        no po).transformer_blocks.length = nlayers ∧
    ∀ i (hi : i < (mkMochiTransformer3DModel p nah ahd nlayers pooled ic ocs pfv
        pe te env no po).transformer_blocks.length),
      (((mkMochiTransformer3DModel p nah ahd nlayers pooled ic ocs pfv pe te env
        no po).transformer_blocks.get ⟨i, hi⟩).context_pre_only = true ↔
        i = nlayers - 1) := by
  constructor
  · simp [mkMochiTransformer3DModel]
  · intro i hi
    have hi2 : i < nlayers := by
      simpa [mkMochiTransformer3DModel] using hi
    simp [mkMochiTransformer3DModel, mkMochiTransformerBlock, List.get_eq_getElem,
      List.getElem_map, List.getElem_range]

/-- C9: both feed-forward inner widths of a block are derived independently by
the integer floor division `(4 * dim * 2) // 3 = (8 * dim) // 3` (source lines
50-51), the video side from the block channel dimension and the text side from
the pooled projection dimension; at `dim = 1536` the width is exactly 4096. -/
theorem mochi_C9 (dim pooled : ℕ) (cpo : Bool) (prims : BlockPrims) :
    (mkMochiTransformerBlock dim pooled cpo prims).ff_inner_dim = 8 * dim / 3 ∧
    (mkMochiTransformerBlock dim pooled cpo prims).ff_context_inner_dim =
      8 * pooled / 3 ∧
    (mkMochiTransformerBlock 1536 pooled cpo prims).ff_inner_dim = 4096 := by
  refine ⟨?_, ?_, by norm_num [mkMochiTransformerBlock]⟩
  · show 4 * dim * 2 / 3 = 8 * dim / 3
    congr 1
    ring
  · show 4 * pooled * 2 / 3 = 8 * pooled / 3
    congr 1
    ring

/-- C10: a block constructed with `context_pre_only = true` has `ff_context =
None` (source lines 84-86), and its forward never dereferences that field —
the dereference at source line 128 sits under the same immutable
`context_pre_only` guard (line 127), so replacing the field by anything
leaves the forward result unchanged and the terminal forward never fails on
the absent text-side feed-forward. -/
theorem mochi_C10 (dim pooled : ℕ) (prims : BlockPrims)
    (fc : Option (Tensor3 → Tensor3)) (h e : Tensor3) (temb : Tensor2)
    (rot : Option Rotary) :
    (mkMochiTransformerBlock dim pooled true prims).ff_context = none ∧
    ({ mkMochiTransformerBlock dim pooled true prims with ff_context := fc } :
        MochiTransformerBlock).forward h e temb rot =
      (mkMochiTransformerBlock dim pooled true prims).forward h e temb rot :=
  ⟨rfl, rfl⟩

/-- A concrete single-layer model with trivial external stubs (patch size 1,
one channel, identity-style embedding, norm and a projection fixing the last
dimension to 1). -/
noncomputable def modelW1 : MochiTransformer3DModel :=
  mkMochiTransformer3DModel 1 1 2 1 1 1 none (fun _ _ _ => 0)
    (identityPatchEmbed 1) timeEmbedPass (fun _ => trivPrims)
    (fun z _ => z) (fun z => ⟨z.d0, z.d1, 1, fun b t d => z.val b t d⟩)

theorem mochi_C8_witness :
    modelW1.transformer_blocks.length = 1 ∧
    ((modelW1.transformer_blocks.get
        ⟨0, by simp [modelW1, mkMochiTransformer3DModel]⟩).context_pre_only = true ↔
      (0 : ℕ) = 1 - 1) :=
  ⟨(mochi_C8 1 1 2 1 1 1 none (fun _ _ _ => 0) (identityPatchEmbed 1) timeEmbedPass
      (fun _ => trivPrims) (fun z _ => z)
      (fun z => ⟨z.d0, z.d1, 1, fun b t d => z.val b t d⟩)).1,
    (mochi_C8 1 1 2 1 1 1 none (fun _ _ _ => 0) (identityPatchEmbed 1) timeEmbedPass
      (fun _ => trivPrims) (fun z _ => z)
      (fun z => ⟨z.d0, z.d1, 1, fun b t d => z.val b t d⟩)).2 0 _⟩

/-- C2 counterexample: with the RMS-norm external stubbed to the identity, a
constant-1 text stream and zero `enc_scale_mlp`, the tensor the source feeds
into the text-side feed-forward (lines 120-122) evaluates to 2 at index
(0,0,0), while the spec's claimed scaled-tensor form evaluates to 1 — the
source folds the updated text stream in as an extra residual term. -/
theorem mochi_C2_counterexample :
    (mochiTextFFInput (fun z => z) t3one (zeros2 1 1)).map
        (fun t => t.val 0 0 0) = some 2 ∧
    (specTextFFInput (fun z => z) t3one (zeros2 1 1)).map
        (fun t => t.val 0 0 0) = some 1 ∧
    (2 : ℝ) ≠ 1 := by
  refine ⟨?_, ?_, by norm_num⟩
  · simp [mochiTextFFInput, mul3, add3, elemwise3, bdim, bidx, onePlus3,
      unsqueeze1, zeros2, t3one]
    norm_num
  · simp [specTextFFInput, mul3, elemwise3, bdim, bidx, onePlus3,
      unsqueeze1, zeros2, t3one]

/-- C2 amended: in every non-terminal block the text stream first receives the
gated attention residual (source lines 117-119), and the tensor fed into the
text-side feed-forward then equals the updated text stream plus the
video-style scaled tensor: `text + RMSNorm(text) * (1 + enc_scale_mlp)`
(source lines 120-122) — the spec's scaled form with the text stream folded
in as an additional residual term. -/
theorem mochi_C2_amended (n3 : Tensor3 → Tensor3) (e : Tensor3) (s : Tensor2) :
    mochiTextFFInput n3 e s = (specTextFFInput n3 e s).bind (fun t => add3 e t) :=
  rfl

/-- C3 counterexample: at batch 2 with three text tokens, the source's
text-side feed-forward gated residual (line 129, `unsqueeze(0)`) raises a
broadcast shape error, while the claimed token-axis broadcast
(`unsqueeze(1)`, mirroring the video side at line 125) succeeds. -/
theorem mochi_C3_counterexample :
    mochiTextFFResidual e23z e23z (zeros2 2 1) = none ∧
    (specTextFFResidual e23z e23z (zeros2 2 1)).isSome = true := by
  constructor
  · rfl
  · rfl

/-- A broadcast multiply against an axis-0-unsqueezed vector coincides with
the axis-1-unsqueezed form when the vector's leading dimension is 1. -/
theorem mul3_unsqueeze01 (x : Tensor3) (g : Tensor2) (hg : g.d0 = 1) :
    mul3 x (unsqueeze0 g) = mul3 x (unsqueeze1 g) := by
  obtain ⟨gd0, gd1, gv⟩ := g
  simp only at hg
  subst hg
  unfold mul3 elemwise3 unsqueeze0 unsqueeze1
  simp only
  cases hb0 : bdim x.d0 1 <;> cases hb1 : bdim x.d1 1 <;>
    cases hb2 : bdim x.d2 gd1 <;> simp [bidx]

/-- C3 amended: the text-side feed-forward gated residual multiplies by
`tanh(enc_gate_mlp).unsqueeze(0)` — the new axis is inserted at the batch
axis, not the token axis as on the video side; this coincides with the
token-axis broadcast exactly when the modulation batch dimension is 1. -/
theorem mochi_C3_amended (e cf : Tensor3) (g : Tensor2) (hg : g.d0 = 1) :
    mochiTextFFResidual e cf g = specTextFFResidual e cf g := by
  unfold mochiTextFFResidual specTextFFResidual
  rw [mul3_unsqueeze01 cf (tanh2 g) hg]

theorem mochi_C3_witness :
    (zeros2 1 1).d0 = 1 ∧
    mochiTextFFResidual t3zero t3zero (zeros2 1 1) =
      specTextFFResidual t3zero t3zero (zeros2 1 1) :=
  ⟨rfl, mochi_C3_amended t3zero t3zero (zeros2 1 1) rfl⟩

/-- A linear stub that adds 1 to every entry (a concretely non-identity
`nn.Linear` instance for `norm1_context`). -/
noncomputable def linPlusOne : Tensor3 → Tensor3 :=
  fun z => ⟨z.d0, z.d1, z.d2, fun b t d => z.val b t d + 1⟩

/-- Block primitives whose terminal-side linear projection is `linPlusOne`. -/
noncomputable def primsC1 : BlockPrims :=
  { trivPrims with norm1_context_lin := linPlusOne }

/-- A concrete terminal block built from `primsC1`. -/
noncomputable def blkC1 : MochiTransformerBlock :=
  mkMochiTransformerBlock 1 1 true primsC1

/-- C1 counterexample: a terminal block whose linear projection adds 1.  On a
zero text stream the block's forward returns the text stream with value 0 at
index (0,0,0), while the linear re-projection of the input has value 1 there:
the forward returns the raw input text stream, not the projection (source
line 131 returns `encoder_hidden_states`, which the terminal branch never
reassigns). -/
theorem mochi_C1_counterexample :
    (blkC1.forward t3zero t3zero (zeros2 1 1) none).map
        (fun o => o.2.val 0 0 0) = some 0 ∧
    (linPlusOne t3zero).val 0 0 0 = 1 ∧ (0 : ℝ) ≠ 1 := by
  refine ⟨?_, by norm_num [linPlusOne, t3zero], by norm_num⟩
  rfl

/-- C1 amended: for every block constructed with `context_pre_only = true`,
whenever the forward succeeds it returns as its text-stream output the input
text stream itself, unchanged — the step-2 linear re-projection
(`norm1_context`) is applied only to build the attention input (source line
105), and no residual update, feed-forward pass or re-projection touches the
returned text stream (source line 131). -/
theorem mochi_C1_amended (blk : MochiTransformerBlock)
    (h e : Tensor3) (temb : Tensor2) (rot : Option Rotary)
    (hcpo : blk.context_pre_only = true) :
    (blk.forward h e temb rot).map (fun o => o.2) =
      (blk.forward h e temb rot).map (fun _ => e) := by
  have key : ∀ out, blk.forward h e temb rot = some out → out.2 = e := by
    intro out hout
    rcases hn : blk.norm1 h temb with ⟨nh, g1, s1, g2⟩
    simp only [MochiTransformerBlock.forward, hn, hcpo, if_true] at hout
    simp only [bind, Option.bind_eq_some, Option.pure_def, Option.some.injEq] at hout
    obtain ⟨lin, hlin, t1, ht1, h1, hh1, ns, hns, t2, ht2, h2, hh2, hfin⟩ := hout
    subst hfin
    rfl
  cases hR : blk.forward h e temb rot with
  | none => rfl
  | some out => simp [key out hR]

theorem mochi_C1_witness :
    blkC1.context_pre_only = true ∧
    (blkC1.forward t3zero t3zero (zeros2 1 1) none).map (fun o => o.2) =
      (blkC1.forward t3zero t3zero (zeros2 1 1) none).map (fun _ => t3zero) :=
  ⟨rfl, mochi_C1_amended blkC1 t3zero t3zero (zeros2 1 1) none rfl⟩

/-- A zero `(1, 12, 1, 3, 2)` video tensor — height 3 is not divisible by the
patch size 2. -/
noncomputable def x5C4 : Tensor5 := ⟨1, 12, 1, 3, 2, fun _ _ _ _ _ => 0⟩

/-- A zero `(1, 1, 1, 1, 1)` video tensor. -/
noncomputable def x5one : Tensor5 := ⟨1, 1, 1, 1, 1, fun _ _ _ _ _ => 0⟩

/-- A zero scalar timestep tensor. -/
noncomputable def ts1 : Tensor1 := ⟨1, fun _ => 0⟩

/-- A zero `(1, 1)` attention mask. -/
noncomputable def mask1 : Tensor2 := zeros2 1 1

/-- Concrete model for the C4 counterexample: patch size 2, 12 input channels,
zero layers, identity patch embedding, norm and projection. -/
noncomputable def modelC4 : MochiTransformer3DModel :=
  mkMochiTransformer3DModel 2 24 128 0 1536 12 none (fun _ _ _ => 0)
    (identityPatchEmbed 2) timeEmbedPass (fun _ => trivPrims)
    (fun z _ => z) (fun z => z)

/-- C4 counterexample: on a `(1, 12, 1, 3, 2)` input with patch size 2 —
height 3 not divisible by 2 — the forward does not fail: no divisibility check
exists, the trailing patch row is silently dropped by the stride-2 patch
embedding, both `-1` reshapes happen to succeed, and a silently mis-shaped
`(1, 8, 1, 3, 2)` tensor is returned instead of a `ShapeMismatch` error. -/
theorem mochi_C4_counterexample :
    x5C4.d3 % modelC4.patch_size = 1 ∧
    (modelC4.forward x5C4 t3zero ts1 mask1 none).map Tensor5.shape =
      some (1, 8, 1, 3, 2) :=
  ⟨rfl, rfl⟩

/-- C4 amended: the forward contains no explicit divisibility check, and
non-divisible heights or widths are not reliably rejected (see the
counterexample, which silently returns a mis-shaped tensor).  For inputs with
`height % p = 0` and `width % p = 0`, all dimensions positive, the external
modules meeting their spec shape contracts and the text-stream token count
compatible with the line-129 gate broadcast, no shape error is raised. -/
theorem mochi_C4_amended (m : MochiTransformer3DModel) (oc : ℕ)
    (x : Tensor5) (enc : Tensor3) (ts : Tensor1) (mask : Tensor2)
    (rot : Option Rotary)
    (hp : 0 < m.patch_size) (hB : 0 < x.d0) (hF : 0 < x.d2)
    (hH : 0 < x.d3) (hW : 0 < x.d4)
    (hdivH : x.d3 % m.patch_size = 0) (hdivW : x.d4 % m.patch_size = 0)
    (hblocks : ∀ blk ∈ m.transformer_blocks, BlockContract blk ∧ BlockVariantsOk blk)
    (hpe : ∀ x4 : Tensor4, (m.patch_embed x4).d0 = x4.d0 ∧
      (m.patch_embed x4).d1 = (x4.d2 / m.patch_size) * (x4.d3 / m.patch_size))
    (hcond : (m.time_embed ts enc mask).2.d1 = (m.time_embed ts enc mask).2.d0 ∨
      (m.time_embed ts enc mask).2.d1 = 1 ∨ (m.time_embed ts enc mask).2.d0 = 1)
    (hnormout : ∀ z t, (m.norm_out z t).shape = z.shape)
    (hproj : ∀ z : Tensor3, (m.proj_out z).d0 = z.d0 ∧ (m.proj_out z).d1 = z.d1 ∧
      (m.proj_out z).d2 = m.patch_size * m.patch_size * oc) :
    (m.forward x enc ts mask rot).isSome = true := by
  obtain ⟨y, hy, -⟩ := mochiModel_forward_shape m oc x enc ts mask rot hp hB hF hH hW
    hdivH hdivW hblocks hpe hcond hnormout hproj
  simp [hy]

theorem mochi_C4_witness :
    x5one.d3 % modelW1.patch_size = 0 ∧ x5one.d4 % modelW1.patch_size = 0 ∧
    (modelW1.forward x5one t3zero ts1 mask1 none).isSome = true :=
  ⟨rfl, rfl,
    mochi_C4_amended modelW1 1 x5one t3zero ts1 mask1 none Nat.one_pos
      Nat.one_pos Nat.one_pos Nat.one_pos Nat.one_pos rfl rfl
      (mk_model_blocks_ok 1 1 2 1 1 1 none (fun _ _ _ => 0) (identityPatchEmbed 1)
        timeEmbedPass (fun z _ => z) (fun z => ⟨z.d0, z.d1, 1, fun b t d => z.val b t d⟩))
      (fun _ => ⟨rfl, rfl⟩) (Or.inr (Or.inr rfl)) (fun _ _ => rfl)
      (fun _ => ⟨rfl, rfl, rfl⟩)⟩

/-- Concrete model for the C6 counterexample: two layers (so the first is
non-terminal), patch size 1, trivial shape-correct external stubs. -/
noncomputable def modelC6 : MochiTransformer3DModel :=
  mkMochiTransformer3DModel 1 1 1 2 1 1 none (fun _ _ _ => 0)
    (identityPatchEmbed 1) timeEmbedPass (fun _ => trivPrims)
    (fun z _ => z) (fun z => z)

/-- C6 counterexample: a divisible `(1, 1, 1, 1, 1)` video input with a
batch-2, three-token text stream and two layers: the first (non-terminal)
block's line-129 gate broadcast (`unsqueeze(0)`, a `(2,3,1)` times `(1,2,1)`
product) raises a shape error, so the forward returns no tensor at all
instead of the claimed `(batch, out_channels, frames, height, width)`. -/
theorem mochi_C6_counterexample :
    x5one.d3 % modelC6.patch_size = 0 ∧ x5one.d4 % modelC6.patch_size = 0 ∧
    modelC6.forward x5one e23z ts1 mask1 none = none :=
  ⟨rfl, rfl, rfl⟩

/-- C6 amended: for inputs with `height % p = 0` and `width % p = 0`, all
dimensions positive, the external modules meeting their spec shape contracts,
and the text-stream token count compatible with the line-129 gate broadcast
(token count equal to the batch size or either equal to 1 — otherwise a
stack with a non-terminal block fails, see the counterexample), the forward
returns a tensor of shape `(batch, out_channels, frames, height, width)`;
the resolved `out_channels` defaults to `in_channels` when not given
(Python `or`, source line 157). -/
theorem mochi_C6_amended (m : MochiTransformer3DModel)
    (x : Tensor5) (enc : Tensor3) (ts : Tensor1) (mask : Tensor2)
    (rot : Option Rotary)
    (hp : 0 < m.patch_size) (hB : 0 < x.d0) (hF : 0 < x.d2)
    (hH : 0 < x.d3) (hW : 0 < x.d4)
    (hdivH : x.d3 % m.patch_size = 0) (hdivW : x.d4 % m.patch_size = 0)
    (hblocks : ∀ blk ∈ m.transformer_blocks, BlockContract blk ∧ BlockVariantsOk blk)
    (hpe : ∀ x4 : Tensor4, (m.patch_embed x4).d0 = x4.d0 ∧
      (m.patch_embed x4).d1 = (x4.d2 / m.patch_size) * (x4.d3 / m.patch_size))
    (hcond : (m.time_embed ts enc mask).2.d1 = (m.time_embed ts enc mask).2.d0 ∨
      (m.time_embed ts enc mask).2.d1 = 1 ∨ (m.time_embed ts enc mask).2.d0 = 1)
    (hnormout : ∀ z t, (m.norm_out z t).shape = z.shape)
    (hproj : ∀ z : Tensor3, (m.proj_out z).d0 = z.d0 ∧ (m.proj_out z).d1 = z.d1 ∧
      (m.proj_out z).d2 = m.patch_size * m.patch_size * m.out_channels) :
    (m.forward x enc ts mask rot).map Tensor5.shape =
      some (x.d0, m.out_channels, x.d2, x.d3, x.d4) ∧
    ∀ ic2 : ℕ, pythonOrNat none ic2 = ic2 := by
  obtain ⟨y, hy, hs⟩ := mochiModel_forward_shape m m.out_channels x enc ts mask rot
    hp hB hF hH hW hdivH hdivW hblocks hpe hcond hnormout hproj
  exact ⟨by simp [hy, hs], fun _ => rfl⟩

theorem mochi_C6_witness :
    x5one.d3 % modelW1.patch_size = 0 ∧ x5one.d4 % modelW1.patch_size = 0 ∧
    ((modelW1.forward x5one t3zero ts1 mask1 none).map Tensor5.shape =
      some (x5one.d0, modelW1.out_channels, x5one.d2, x5one.d3, x5one.d4) ∧
     ∀ ic2 : ℕ, pythonOrNat none ic2 = ic2) :=
  ⟨rfl, rfl,
    mochi_C6_amended modelW1 x5one t3zero ts1 mask1 none Nat.one_pos
      Nat.one_pos Nat.one_pos Nat.one_pos Nat.one_pos rfl rfl
      (mk_model_blocks_ok 1 1 2 1 1 1 none (fun _ _ _ => 0) (identityPatchEmbed 1)
        timeEmbedPass (fun z _ => z) (fun z => ⟨z.d0, z.d1, 1, fun b t d => z.val b t d⟩))
      (fun _ => ⟨rfl, rfl⟩) (Or.inr (Or.inr rfl)) (fun _ _ => rfl)
      (fun _ => ⟨rfl, rfl, rfl⟩)⟩

/-- Concrete model for the C5 witness: patch size 2, one channel, zero layers,
identity patch embedding, norm and projection. -/
noncomputable def modelC5 : MochiTransformer3DModel :=
  mkMochiTransformer3DModel 2 1 1 0 1 1 none (fun _ _ _ => 0)
    (identityPatchEmbed 2) timeEmbedPass (fun _ => trivPrims)
    (fun z _ => z) (fun z => z)

/-- A `(1, 1, 1, 2, 2)` video tensor with distinct pixel values. -/
noncomputable def x5C5 : Tensor5 :=
  ⟨1, 1, 1, 2, 2, fun _ _ _ h w => ((h * 2 + w : ℕ) : ℝ)⟩

theorem mochi_C5_witness :
    (0 : ℕ) < modelC5.patch_size ∧
    x5C5.d3 % modelC5.patch_size = 0 ∧ x5C5.d4 % modelC5.patch_size = 0 ∧
    (∃ y, modelC5.forward x5C5 t3zero ts1 mask1 none = some y ∧
      y.d0 = x5C5.d0 ∧ y.d1 = x5C5.d1 ∧ y.d2 = x5C5.d2 ∧ y.d3 = x5C5.d3 ∧
      y.d4 = x5C5.d4 ∧
      ∀ b c f h w, b < x5C5.d0 → c < x5C5.d1 → f < x5C5.d2 → h < x5C5.d3 →
        w < x5C5.d4 → y.val b c f h w = x5C5.val b c f h w) :=
  ⟨by decide, rfl, rfl,
    mochi_C5 modelC5 x5C5 t3zero ts1 mask1 none (by decide) Nat.one_pos
      Nat.one_pos (by decide) (by decide) rfl rfl rfl (fun _ _ => rfl)
      (fun _ => rfl)
      (fun blk hblk => absurd hblk (by simp [modelC5, mkMochiTransformer3DModel]))⟩

end MochiSpec
